import Mathlib

/-!
Shallow embedding of the calibration-orchestration core of PypeIt
(`pypeit/calibrations.py`): the `Calibrations` class is modelled as a state
machine.  External collaborators (the frame-index table `fitstbl`, the
per-product builder objects, the file system) are modelled as an opaque,
deterministic environment `Env`; builder invocations are recorded in an
event log so that "no builder I/O happened" is a statable property.
Python attribute slots hold arbitrary objects, so attributes are modelled
with a universal value type `PyVal`; Python `dict`s are association lists.
`msgs.error` raises a fatal error, modelled by the `Res.err` result;
`msgs.warn` increments a warning counter.
-/

/-- Association-list lookup (model of Python `dict` access). -/
def alget {α : Type} : List (String × α) → String → Option α
  | [], _ => none
  | (k, v) :: t, key => if k = key then some v else alget t key

/-- Association-list update/insert (model of Python `dict` assignment):
overwrites in place if the key is present, else appends. -/
def alset {α : Type} : List (String × α) → String → α → List (String × α)
  | [], key, v => [(key, v)]
  | (k, w) :: t, key, v =>
    if k = key then (k, v) :: t else (k, w) :: alset t key v

/-- An image array (e.g. an arc frame); numeric content is embedded over `Int`. -/
abbrev Img := List (List Int)

/-- A per-slit boolean mask (`SlitTraceSet.mask` has dtype bool, shape nslits). -/
abbrev Mask := List Bool

/-- Elementwise `|=` of two boolean per-slit masks (numpy in-place or). -/
def maskLor (a b : Mask) : Mask := List.zipWith or a b

/-- The slit-trace artifact: only the fields the orchestrator touches
(`nslits`, the shared mutable `mask`). -/
structure SlitTraceSet where
  nslits : Nat
  mask : Mask
deriving DecidableEq

/-- Universal value type for Python attribute slots and cache entries. -/
inductive PyVal where
  | pynone
  | img (v : Img)
  | str (v : String)
  | slitsV (v : SlitTraceSet)
  | wvcalibV (v : Nat)
  | tiltsDictV (tilts : Img)
  | maskV (v : Mask)
  | emptyDict
deriving DecidableEq

/-- Builder interactions recorded by the orchestrator model. -/
inductive Event where
  | instantiate (builder : String)
  | load (builder : String)
  | build (builder : String)
  | save (builder : String)
deriving DecidableEq

/-- Result of a getter: normal return, or a raised fatal error
(`msgs.error` / an uncaught Python exception). -/
inductive Res (α : Type) where
  | ok (a : α)
  | err (msg : String)
deriving DecidableEq

/-- The parameter subsets the orchestrator's control flow reads. -/
structure Params where
  flatfield_method : String
  flatfield_frame : String
  flatfield_illumflatten : Bool
  flatfield_tweak_slits : Bool
  wavelengths_reference : String
  bpm_usebias : Bool
deriving DecidableEq

/-- The in-memory calibration cache: master key → product type → value. -/
abbrev Cache := List (String × List (String × PyVal))

/-- State of one `Calibrations` instance. `wavecalib` (set by
`_reset_internals`) and `wv_calib` (used by the getters) are distinct
Python attributes and are kept distinct here; `mstilt` is likewise not
touched by `_reset_internals`.  A never-assigned attribute is modelled as
`PyVal.pynone`. -/
structure CState where
  calib_dict : Cache
  master_key_dict : List (String × String)
  frame : Option Nat
  det : Option Nat
  calib_ID : Option Nat
  parSet : Params
  reuse_masters : Bool
  save_masters : Bool
  write_qa : Bool
  qa_path_set : Bool
  master_dir : String
  shape : Option Nat
  msarc : PyVal
  msbias : PyVal
  msbpm : PyVal
  mstilt : PyVal
  slits : PyVal
  wavecalib : PyVal
  wv_calib : PyVal
  tilts_dict : PyVal
  mspixelflat : PyVal
  msillumflat : PyVal
  mswave : PyVal
  events : List Event
  warnings : Nat
deriving DecidableEq

/-- The deterministic external world: frame-index answers and the results
each opaque builder would produce (spec §6: builders expose load/build/save). -/
structure Env where
  find_frames : String → Nat → List Nat
  frame_paths : List Nat → List String
  master_key : Nat → Nat → String
  calib_groups : Nat → List Nat
  arc_load : Option Img
  arc_build : Img
  bias_load : Option Img
  bias_build : Img
  tiltimg_load : Option Img
  tiltimg_build : Img
  bpm_build : Img
  slits_from_master : Option SlitTraceSet
  edges_exists : Bool
  auto_trace_ok : Bool
  edges_get_slits : SlitTraceSet
  wvcalib_load : Option Nat
  wvcalib_run : Nat
  make_maskslits : Nat → Mask
  tilts_load : Option Img
  tilts_run : Img × Mask
  flat_load : Option Img × Option Img
  flat_run : Img × Img
  isfile : String → Bool
  fits_det : String → Img
  wave_load : Option Img
  wave_build : Img

/-- Append one builder event to the log. -/
def logEv (s : CState) (e : Event) : CState :=
  { s with events := s.events ++ [e] }

/-- `Calibrations._cached`: existence check with placeholder insertion.
A wholly-new key gets an empty entry; a known key missing this product
type gets an empty-dict placeholder under `(key, type)`. -/
def cached (s : CState) (master_type master_key : String) : Bool × CState :=
  match alget s.calib_dict master_key with
  | none =>
    (false, { s with calib_dict := alset s.calib_dict master_key [] })
  | some sub =>
    match alget sub master_type with
    | some _ => (true, s)
    | none =>
      (false, { s with calib_dict :=
                  alset s.calib_dict master_key (alset sub master_type .emptyDict) })

/-- The raw cache store `calib_dict[key][type] = data`; `none` models the
Python `KeyError` raised when `key` is not yet registered. -/
def cachePut (cd : Cache) (key master_type : String) (v : PyVal) : Option Cache :=
  match alget cd key with
  | none => none
  | some sub => some (alset cd key (alset sub master_type v))

/-- Fetch `calib_dict[key][type]` (callers gate on `cached` first). -/
def getArtifact (s : CState) (key master_type : String) : PyVal :=
  match alget s.calib_dict key with
  | some sub => (alget sub master_type).getD .pynone
  | none => .pynone

/-- `Calibrations._update_cache` for a single entry:
`calib_dict[master_key_dict[name]][type] = data`. -/
def update_cache (s : CState) (name master_type : String) (v : PyVal) :
    Res Unit × CState :=
  match alget s.master_key_dict name with
  | none => (.err "KeyError: master_key_dict", s)
  | some key =>
    match cachePut s.calib_dict key master_type v with
    | none => (.err "KeyError: calib_dict", s)
    | some cd => (.ok (), { s with calib_dict := cd })

/-- `Calibrations._update_cache` with a 2-tuple of types and data. -/
def update_cache2 (s : CState) (name t1 : String) (v1 : PyVal) (t2 : String)
    (v2 : PyVal) : Res Unit × CState :=
  match update_cache s name t1 v1 with
  | (.err m, s') => (.err m, s')
  | (.ok _, s') => update_cache s' name t2 v2

/-- Whether the named context attribute is unset (`_chk_set` helper);
`par` is always a `Params` value in this embedding. -/
def attrIsNone (s : CState) (name : String) : Bool :=
  match name with
  | "det" => s.det.isNone
  | "calib_ID" => s.calib_ID.isNone
  | "frame" => s.frame.isNone
  | _ => false

/-- `Calibrations._chk_set`: fatal error naming the first unset attribute. -/
def chk_set (s : CState) (items : List String) : Res Unit :=
  match items.find? (attrIsNone s) with
  | some it => .err ("Use self.set to specify " ++ it ++ " prior to generating XX")
  | none => .ok ()

/-- The object attribute the named `_chk_objs` item refers to. -/
def attrObj (s : CState) (name : String) : PyVal :=
  match name with
  | "msarc" => s.msarc
  | "msbias" => s.msbias
  | "msbpm" => s.msbpm
  | "mstilt" => s.mstilt
  | "slits" => s.slits
  | "wv_calib" => s.wv_calib
  | "tilts_dict" => s.tilts_dict
  | _ => .pynone

/-- `Calibrations._chk_objs`: returns False at the first `None` attribute,
after emitting two warnings for it. -/
def chk_objs (s : CState) (items : List String) : Bool × CState :=
  match items.find? (fun it => attrObj s it = .pynone) with
  | some _ => (false, { s with warnings := s.warnings + 2 })
  | none => (true, s)

/-- `Calibrations._reset_internals`: wipe the per-run scratch attributes.
(`mstilt`, `wv_calib` and `maskslits` are not touched by the source.) -/
def reset_internals (s : CState) : CState :=
  { s with shape := none, msarc := .pynone, msbias := .pynone, msbpm := .pynone,
           slits := .pynone, wavecalib := .pynone, tilts_dict := .pynone,
           mspixelflat := .pynone, msillumflat := .pynone, mswave := .pynone,
           calib_ID := none, master_key_dict := [] }

/-- `Calibrations.set_config`: reset internals, optionally clear the cache,
then initialize frame, calibration group, detector, parameters, and the
frame master key. -/
def set_config (env : Env) (s : CState) (frame det : Nat) (par : Option Params)
    (calib_id : Option Nat) (rm_cache : Bool) : CState :=
  let s := reset_internals s
  let s := if rm_cache then { s with calib_dict := [], warnings := s.warnings + 1 }
           else s
  let groups := env.calib_groups frame
  let cid := match calib_id with
             | some c => c
             | none => groups.headD 0
  let s := if calib_id = none ∧ 1 < groups.length
           then { s with warnings := s.warnings + 1 } else s
  let s := { s with frame := some frame, calib_ID := some cid, det := some det }
  let s := match par with
           | some p => { s with parSet := p }
           | none => s
  { s with master_key_dict := alset s.master_key_dict "frame" (env.master_key frame det) }

/-- The representative frame for a raw-frame role: the first frame found,
else the context frame (set by `set_config` whenever `calib_ID` is). -/
def repFrame (rows : List Nat) (frame : Option Nat) : Nat :=
  match rows with
  | r :: _ => r
  | [] => frame.getD 0

/-- The master key a raw-frame role resolves to: keyed by the first frame
of that role in the active group, else by the context frame. -/
def roleKey (env : Env) (role : String) (frame cid det : Option Nat) : String :=
  env.master_key (repFrame (env.find_frames role (cid.getD 0)) frame) (det.getD 0)

/-- The master key derived from the context frame itself (used by `get_bpm`). -/
def frameKey (env : Env) (frame det : Option Nat) : String :=
  env.master_key (frame.getD 0) (det.getD 0)

/-- `Calibrations.get_arc` (calibrations.py:315-362): derive the arc master
key from the first arc frame (else the context frame), return the cached
artifact on a hit, else instantiate-load-build-save the `ArcImage` builder
and store the result. -/
def get_arc (env : Env) (s : CState) : Res PyVal × CState :=
  match chk_set s ["det", "calib_ID", "par"] with
  | .err m => (.err m, s)
  | .ok _ =>
    let K := roleKey env "arc" s.frame s.calib_ID s.det
    let s := { s with master_key_dict := alset s.master_key_dict "arc" K }
    match cached s "arc" K with
    | (true, s) =>
      let v := getArtifact s K "arc"
      (.ok v, { s with msarc := v })
    | (false, s) =>
      let s := logEv (logEv s (.instantiate "arcImage")) (.load "arcImage")
      let (v, s) :=
        match env.arc_load with
        | some i => (PyVal.img i, s)
        | none =>
          let s := logEv s (.build "arcImage")
          let s := if s.save_masters then logEv s (.save "arcImage") else s
          (PyVal.img env.arc_build, s)
      let s := { s with msarc := v }
      match update_cache s "arc" "arc" v with
      | (.err m, s') => (.err m, s')
      | (.ok _, s') => (.ok v, s')

/-- `Calibrations.get_bias` (calibrations.py:420-467): same protocol as the
arc getter with role `bias` and the `BiasFrame` builder. -/
def get_bias (env : Env) (s : CState) : Res PyVal × CState :=
  match chk_set s ["det", "calib_ID", "par"] with
  | .err m => (.err m, s)
  | .ok _ =>
    let K := roleKey env "bias" s.frame s.calib_ID s.det
    let s := { s with master_key_dict := alset s.master_key_dict "bias" K }
    match cached s "bias" K with
    | (true, s) =>
      let v := getArtifact s K "bias"
      (.ok v, { s with msbias := v })
    | (false, s) =>
      let s := logEv (logEv s (.instantiate "biasFrame")) (.load "biasFrame")
      let (v, s) :=
        match env.bias_load with
        | some i => (PyVal.img i, s)
        | none =>
          let s := logEv s (.build "biasFrame")
          let s := if s.save_masters then logEv s (.save "biasFrame") else s
          (PyVal.img env.bias_build, s)
      let s := { s with msbias := v }
      match update_cache s "bias" "bias" v with
      | (.err m, s') => (.err m, s')
      | (.ok _, s') => (.ok v, s')

/-- `Calibrations.get_tiltimg` (calibrations.py:365-418): hard error when
zero tilt frames are found; otherwise the arc/bias protocol with role
`tilt`, cache type `tiltimg`, and the `TiltImage` builder. -/
def get_tiltimg (env : Env) (s : CState) : Res PyVal × CState :=
  match chk_set s ["det", "calib_ID", "par"] with
  | .err m => (.err m, s)
  | .ok _ =>
    if env.find_frames "tilt" (s.calib_ID.getD 0) = [] then
      (.err "Must identify tilt frames to construct tilt image.", s)
    else
      let K := roleKey env "tilt" s.frame s.calib_ID s.det
      let s := { s with master_key_dict := alset s.master_key_dict "tilt" K }
      match cached s "tiltimg" K with
      | (true, s) =>
        let v := getArtifact s K "tiltimg"
        (.ok v, { s with mstilt := v })
      | (false, s) =>
        let s := logEv (logEv s (.instantiate "tiltImage")) (.load "tiltImage")
        let (v, s) :=
          match env.tiltimg_load with
          | some i => (PyVal.img i, s)
          | none =>
            let s := logEv s (.build "tiltImage")
            let s := if s.save_masters then logEv s (.save "tiltImage") else s
            (PyVal.img env.tiltimg_build, s)
        let s := { s with mstilt := v }
        match update_cache s "tilt" "tiltimg" v with
        | (.err m, s') => (.err m, s')
        | (.ok _, s') => (.ok v, s')

/-- `Calibrations.get_bpm` (calibrations.py:469-511): keyed off the context
frame; optionally consults the bias cache (a `KeyError` if `get_bias` never
registered the `bias` master key); builds via `Spectrograph.bpm`. -/
def get_bpm (env : Env) (s : CState) : Res PyVal × CState :=
  match chk_set s ["par", "det"] with
  | .err m => (.err m, s)
  | .ok _ =>
    let K := frameKey env s.frame s.det
    let s := { s with master_key_dict := alset s.master_key_dict "bpm" K }
    match cached s "bpm" K with
    | (true, s) =>
      let v := getArtifact s K "bpm"
      (.ok v, { s with msbpm := v })
    | (false, s) =>
      let biasStep : Res Unit × CState :=
        if s.parSet.bpm_usebias then
          match alget s.master_key_dict "bias" with
          | none => (.err "KeyError: bias", s)
          | some Kb => (.ok (), (cached s "bias" Kb).2)
        else (.ok (), s)
      match biasStep with
      | (.err m, s') => (.err m, s')
      | (.ok _, s) =>
        let s := logEv s (.build "bpm")
        let v := env.bpm_build
        let s := { s with msbpm := .img v, shape := some v.length }
        match update_cache s "bpm" "bpm" (.img v) with
        | (.err m, s') => (.err m, s')
        | (.ok _, s') => (.ok (.img v), s')

/-- The per-slit mask carried by a `PyVal`, when it is one. -/
def maskOf : PyVal → Option Mask
  | .maskV m => some m
  | _ => none

/-- OR a mask contribution into `self.slits.mask`; `none` models the
`AttributeError`/`TypeError` raised when `slits` is not a slit-trace object
or the contribution is not a mask array. -/
def orSlitMask (s : CState) (contrib : PyVal) : Option CState :=
  match s.slits, maskOf contrib with
  | .slitsV st, some m =>
    some { s with slits := .slitsV { st with mask := maskLor st.mask m } }
  | _, _ => none

/-- `Calibrations.get_slits` (calibrations.py:672-763) with the `write_qa`
argument left at its `None` default: short-circuit to no slits when the BPM
is missing; on a cache miss try `SlitTraceSet.from_master` (which returns
`None` unless masters are reused), then either load the persisted edge
trace or build a trace image and run `auto_trace`; a crash in `auto_trace`
saves the partial edge state and then raises. -/
def get_slits (env : Env) (redo : Bool) (s : CState) : Res PyVal × CState :=
  if s.write_qa ∧ ¬s.qa_path_set then
    (.err "QA path is not defined.  Cannot produce slit QA plots.", s)
  else
    match chk_objs s ["msbpm"] with
    | (false, s) => (.ok .pynone, { s with slits := .pynone })
    | (true, s) =>
      match chk_set s ["det", "calib_ID", "par"] with
      | .err m => (.err m, s)
      | .ok _ =>
        let K := roleKey env "trace" s.frame s.calib_ID s.det
        let s := { s with master_key_dict := alset s.master_key_dict "trace" K }
        match cached s "trace" K with
        | (true, s) =>
          if ¬redo then
            let v := getArtifact s K "trace"
            (.ok v, { s with slits := v })
          else
            get_slits_build env s
        | (false, s) => get_slits_build env s
where
  /-- The build half of `get_slits` (from calibrations.py:718 on). -/
  get_slits_build (env : Env) (s : CState) : Res PyVal × CState :=
    let s := logEv s (.load "slitsMaster")
    let loaded := if s.reuse_masters then env.slits_from_master else none
    match loaded with
    | some st =>
      let s := { s with slits := .slitsV st }
      match update_cache s "trace" "trace" (.slitsV st) with
      | (.err m, s') => (.err m, s')
      | (.ok _, s') => (.ok (.slitsV st), s')
    | none =>
      let s := logEv s (.instantiate "edges")
      let finish (s : CState) : Res PyVal × CState :=
        let st := env.edges_get_slits
        let s := { s with events := s.events
            ++ (if s.save_masters then [Event.save "slits"] else []) }
        let s := { s with slits := .slitsV st }
        match update_cache s "trace" "trace" (.slitsV st) with
        | (.err m, s') => (.err m, s')
        | (.ok _, s') => (.ok (.slitsV st), s')
      if s.reuse_masters ∧ env.edges_exists then
        finish (logEv s (.load "edges"))
      else
        let s := logEv (logEv s (.instantiate "traceImage")) (.build "traceImage")
        if env.auto_trace_ok then
          finish (logEv s (.build "edges"))
        else
          let s := logEv s (.save "edges")
          (.err "Crashed out of finding the slits. Have saved the work done to disk but it needs fixing.", s)

/-- `Calibrations.get_wv_calib` (calibrations.py:817-885): upstream-object
check, context check, arc-master-key check; on a full cache hit the per-slit
mask is still OR-merged into the shared slit mask; in pixel-reference mode
the source reads the never-assigned attribute `self.maskslits`
(calibrations.py:848), so that path raises `AttributeError`; otherwise
load-or-run the `WaveCalib` builder, recompute the per-slit mask, OR-merge
it, and cache both results. -/
def get_wv_calib (env : Env) (s : CState) : Res PyVal × CState :=
  match chk_objs s ["msarc", "msbpm", "slits"] with
  | (false, s) => (.err "dont have all the objects", s)
  | (true, s) =>
    match chk_set s ["det", "calib_ID", "par"] with
    | .err m => (.err m, s)
    | .ok _ =>
      match alget s.master_key_dict "arc" with
      | none => (.err "Arc master key not set.  First run get_arc.", s)
      | some Karc =>
        let (h1, s) := cached s "wavecalib" Karc
        let (h2, s) := if h1 then cached s "wvmask" Karc else (false, s)
        if h1 ∧ h2 then
          let wc := getArtifact s Karc "wavecalib"
          let wm := getArtifact s Karc "wvmask"
          match orSlitMask s wm with
          | some s' => (.ok wc, { s' with wv_calib := wc })
          | none => (.err "TypeError: slits.mask", s)
        else if s.parSet.wavelengths_reference = "pixel" then
          (.err "AttributeError: maskslits", s)
        else
          let arc_rows := env.find_frames "arc" (s.calib_ID.getD 0)
          let arc_files := env.frame_paths arc_rows
          if arc_files = [] then
            (.err "IndexError: arc_files", s)
          else
            let s := logEv (logEv s (.instantiate "waveCalib")) (.load "waveCalib")
            let (wc, s) :=
              match env.wvcalib_load with
              | some w => (w, s)
              | none =>
                let s := logEv s (.build "waveCalib")
                let s := if s.save_masters then logEv s (.save "waveCalib") else s
                (env.wvcalib_run, s)
            match s.slits with
            | .slitsV st =>
              let wm := env.make_maskslits st.nslits
              let s := { s with wv_calib := .wvcalibV wc,
                                slits := .slitsV { st with mask := maskLor st.mask wm } }
              match update_cache2 s "arc" "wavecalib" (.wvcalibV wc) "wvmask" (.maskV wm) with
              | (.err m, s') => (.err m, s')
              | (.ok _, s') => (.ok (.wvcalibV wc), s')
            | _ => (.err "AttributeError: slits.nslits", s)

/-- `Calibrations.get_tilts` (calibrations.py:887-945): upstream-object
check, context check, tilt-master-key check; full cache hit OR-merges the
cached mask contribution; else load-or-run the `WaveTilts` builder (a
loaded tilts dict contributes a zero mask), cache both, then OR-merge. -/
def get_tilts (env : Env) (s : CState) : Res PyVal × CState :=
  match chk_objs s ["mstilt", "msbpm", "slits", "wv_calib"] with
  | (false, s) => (.err "dont have all the objects", s)
  | (true, s) =>
    match chk_set s ["det", "calib_ID", "par"] with
    | .err m => (.err m, s)
    | .ok _ =>
      match alget s.master_key_dict "tilt" with
      | none => (.err "Tilt master key not set.  First run get_tiltimage.", s)
      | some Kt =>
        let (h1, s) := cached s "tilts_dict" Kt
        let (h2, s) := if h1 then cached s "wtmask" Kt else (false, s)
        if h1 ∧ h2 then
          let td := getArtifact s Kt "tilts_dict"
          let wt := getArtifact s Kt "wtmask"
          match orSlitMask s wt with
          | some s' => (.ok td, { s' with tilts_dict := td })
          | none => (.err "TypeError: slits.mask", s)
        else
          let s := logEv (logEv s (.instantiate "waveTilts")) (.load "waveTilts")
          let wtOf : CState → Option (Img × Mask × CState) :=
            fun s =>
              match env.tilts_load with
              | some td =>
                match s.slits with
                | .slitsV st => some (td, List.replicate st.nslits false, s)
                | _ => none
              | none =>
                let s := logEv s (.build "waveTilts")
                let s := if s.save_masters then logEv s (.save "waveTilts") else s
                some (env.tilts_run.1, env.tilts_run.2, s)
          match wtOf s with
          | none => (.err "AttributeError: slits.nslits", s)
          | some (td, wt, s) =>
            let s := { s with tilts_dict := .tiltsDictV td }
            match update_cache2 s "tilt" "tilts_dict" (.tiltsDictV td) "wtmask" (.maskV wt) with
            | (.err m, s') => (.err m, s')
            | (.ok _, s') =>
              match orSlitMask s' (.maskV wt) with
              | some s'' => (.ok (.tiltsDictV td), s'')
              | none => (.err "TypeError: slits.mask", s')

/-- The pixel-reference wavelength image `tilts * (nspec - 1)`
(calibrations.py:792), where `nspec` is the number of tilt-image rows. -/
def scaleImg (t : Img) : Img :=
  t.map (fun row => row.map (fun x => x * (Int.ofNat t.length - 1)))

/-- `Calibrations.get_wave` (calibrations.py:765-815): missing upstream
objects degrade to a `None` result; a missing arc master key is a
`KeyError`; cache hit returns the stored image; pixel-reference mode warns
and stores `tilts * (nspec-1)` directly in the cache without any builder;
otherwise load-or-build the `WaveImage` builder and cache the result. -/
def get_wave (env : Env) (s : CState) : Res PyVal × CState :=
  match chk_objs s ["tilts_dict", "slits", "wv_calib"] with
  | (false, s) => (.ok .pynone, { s with mswave := .pynone })
  | (true, s) =>
    match chk_set s ["det", "par"] with
    | .err m => (.err m, s)
    | .ok _ =>
      match alget s.master_key_dict "arc" with
      | none => (.err "KeyError: arc", s)
      | some Karc =>
        match cached s "wave" Karc with
        | (true, s) =>
          let v := getArtifact s Karc "wave"
          (.ok v, { s with mswave := v })
        | (false, s) =>
          if s.parSet.wavelengths_reference = "pixel" then
            let s := { s with warnings := s.warnings + 1 }
            match s.tilts_dict with
            | .tiltsDictV t =>
              let w := scaleImg t
              match cachePut s.calib_dict Karc "wave" (.img w) with
              | some cd =>
                (.ok (.img w), { s with mswave := .img w, calib_dict := cd })
              | none => (.err "KeyError: calib_dict", s)
            | _ => (.err "TypeError: tilts_dict", s)
          else
            let s := logEv (logEv s (.instantiate "waveImage")) (.load "waveImage")
            let (v, s) :=
              match env.wave_load with
              | some i => (PyVal.img i, s)
              | none =>
                let s := logEv s (.build "waveImage")
                let s := if s.save_masters then logEv s (.save "waveImage") else s
                (PyVal.img env.wave_build, s)
            let s := { s with mswave := v }
            match update_cache s "arc" "wave" v with
            | (.err m, s') => (.err m, s')
            | (.ok _, s') => (.ok v, s')

/-- `Calibrations.get_flats` (calibrations.py:513-668): fatal upstream check
(arc, bpm, slits, wv_calib); `flatfield.method = skip` short-circuits to
`(None, None)` with one warning; missing slits/tilts at the second check
degrade to a warning and `(None, None)`; else cache check, builder load, an
optional user-supplied flat file (literal path, then relative to the master
directory, else fatal), an optional build (re-persisting the slits when
`tweak_slits` is set), unity-flat warnings, and a two-entry cache store. -/
def get_flats (env : Env) (s : CState) : Res (PyVal × PyVal) × CState :=
  match chk_objs s ["msarc", "msbpm", "slits", "wv_calib"] with
  | (false, s) =>
    (.err "Must have the arc, bpm, slits, and wv_calib defined to proceed!", s)
  | (true, s) =>
    if s.parSet.flatfield_method = "skip" then
      let s := { s with mspixelflat := .pynone, msillumflat := .pynone,
                        warnings := s.warnings + 1 }
      (.ok (.pynone, .pynone), s)
    else
      match chk_objs s ["slits", "tilts_dict"] with
      | (false, s) =>
        let s := { s with warnings := s.warnings + 1,
                          mspixelflat := .pynone, msillumflat := .pynone }
        (.ok (.pynone, .pynone), s)
      | (true, s) =>
        match chk_set s ["det", "calib_ID", "par"] with
        | .err m => (.err m, s)
        | .ok _ =>
          let files := env.frame_paths (env.find_frames "pixelflat" (s.calib_ID.getD 0))
          let K := roleKey env "pixelflat" s.frame s.calib_ID s.det
          let s := { s with master_key_dict := alset s.master_key_dict "flat" K }
          let (h1, s) := cached s "pixelflat" K
          let (h2, s) := if h1 then cached s "illumflat" K else (false, s)
          if h1 ∧ h2 then
            let pf := getArtifact s K "pixelflat"
            let fi := getArtifact s K "illumflat"
            (.ok (pf, fi), { s with mspixelflat := pf, msillumflat := fi })
          else
            let s := logEv (logEv s (.instantiate "flatField")) (.load "flatField")
            let pf : PyVal :=
              match env.flat_load.1 with | some i => .img i | none => .pynone
            let fi : PyVal :=
              match env.flat_load.2 with | some i => .img i | none => .pynone
            let userStep : Res (PyVal × PyVal) × CState :=
              if s.parSet.flatfield_frame ≠ "pixelflat" then
                if env.isfile s.parSet.flatfield_frame then
                  (.ok (.img (env.fits_det s.parSet.flatfield_frame), .pynone), s)
                else if env.isfile (s.master_dir ++ "/" ++ s.parSet.flatfield_frame) then
                  (.ok (.img (env.fits_det
                      (s.master_dir ++ "/" ++ s.parSet.flatfield_frame)), .pynone), s)
                else
                  (.err ("Could not find user-defined flatfield file: "
                      ++ s.parSet.flatfield_frame), s)
              else (.ok (pf, fi), s)
            match userStep with
            | (.err m, s') => (.err m, s')
            | (.ok (pf, fi), s) =>
              let step3 : PyVal × PyVal × CState :=
                if pf = .pynone ∧ files ≠ [] then
                  let s := logEv s (.build "flatField")
                  let s := { s with events := s.events
                      ++ (if s.save_masters then
                            Event.save "flatField"
                              :: (if s.parSet.flatfield_tweak_slits
                                  then [Event.save "slits"] else [])
                          else []) }
                  (PyVal.img env.flat_run.1, PyVal.img env.flat_run.2, s)
                else (pf, fi, s)
              match step3 with
              | (pf, fi, s) =>
                let s := { s with warnings := s.warnings
                    + (if pf = PyVal.pynone then 1 else 0)
                    + (if fi = PyVal.pynone ∨ ¬s.parSet.flatfield_illumflatten then 1 else 0) }
                let s := { s with mspixelflat := pf, msillumflat := fi }
                match update_cache2 s "flat" "pixelflat" pf "illumflat" fi with
                | (.err m, s') => (.err m, s')
                | (.ok _, s') => (.ok (pf, fi), s')

/-! Characterization lemmas for the cache operations. -/

/-- A concrete parameter set (no skip, no user flat, physical wavelengths). -/
def par0 : Params :=
  { flatfield_method := "pixelflat", flatfield_frame := "pixelflat",
    flatfield_illumflatten := true, flatfield_tweak_slits := false,
    wavelengths_reference := "arc", bpm_usebias := false }

/-- A freshly constructed orchestrator state (nothing configured). -/
def st0 : CState :=
  { calib_dict := [], master_key_dict := [], frame := none, det := none,
    calib_ID := none, parSet := par0, reuse_masters := false,
    save_masters := false, write_qa := false, qa_path_set := false,
    master_dir := "MD", shape := none, msarc := .pynone, msbias := .pynone,
    msbpm := .pynone, mstilt := .pynone, slits := .pynone,
    wavecalib := .pynone, wv_calib := .pynone, tilts_dict := .pynone,
    mspixelflat := .pynone, msillumflat := .pynone, mswave := .pynone,
    events := [], warnings := 0 }

/-- A concrete external world with one frame per role and no on-disk masters. -/
def env0 : Env :=
  { find_frames := fun _ _ => [0], frame_paths := fun rows => rows.map (fun _ => "f"),
    master_key := fun f d => "K" ++ toString f ++ "_" ++ toString d,
    calib_groups := fun _ => [1],
    arc_load := none, arc_build := [[1]],
    bias_load := none, bias_build := [[2]],
    tiltimg_load := none, tiltimg_build := [[3]],
    bpm_build := [[0, 0]],
    slits_from_master := none, edges_exists := false, auto_trace_ok := true,
    edges_get_slits := { nslits := 2, mask := [false, false] },
    wvcalib_load := none, wvcalib_run := 7,
    make_maskslits := fun _ => [true, false],
    tilts_load := none, tilts_run := ([[4]], [false, true]),
    flat_load := (none, none), flat_run := ([[5]], [[6]]),
    isfile := fun _ => false, fits_det := fun _ => [[9]],
    wave_load := none, wave_build := [[8]] }

/-- A configured state: `st0` after a `set_config`-style initialization. -/
def stC : CState :=
  { st0 with frame := some 5, det := some 1, calib_ID := some 1,
             master_key_dict := [("frame", "K5_1")] }

/-- An external world whose frame index finds no frames for any role. -/
def env6 : Env := { env0 with find_frames := fun _ _ => [] }

/-- A skip-flats parameter set. -/
def parSkip : Params := { par0 with flatfield_method := "skip" }

/-- A configured state with arc, bpm and a wavelength calibration present
but no slit trace. -/
def stNoSlits : CState :=
  { stC with parSet := parSkip, msarc := .img [[1]], msbpm := .img [[0, 0]],
             wv_calib := .wvcalibV 7 }

/-- A pixel-reference configured state poised for `get_wv_calib` (arc, bpm
and slits available, arc master key registered, empty cache). -/
def stPix : CState :=
  { stC with parSet := { par0 with wavelengths_reference := "pixel" },
             msarc := .img [[1]], msbpm := .img [[0, 0]],
             slits := .slitsV { nslits := 2, mask := [false, false] },
             master_key_dict := [("frame", "K5_1"), ("arc", "KA")] }

/-- An external world whose edge tracing crashes. -/
def env7 : Env := { env0 with auto_trace_ok := false }

/-- A configured state with arc, bpm and slits present but no arc key. -/
def stWv : CState :=
  { stC with msarc := .img [[1]], msbpm := .img [[0, 0]],
             slits := .slitsV { nslits := 2, mask := [false, false] } }

def idemHit (g : Env → CState → Res PyVal × CState) : Prop :=
  ∀ env s a s1, g env s = (.ok a, s1) →
    (g env s1).1 = .ok a ∧ ((g env s1).2).events = s1.events

def idemHitPair (g : Env → CState → Res (PyVal × PyVal) × CState) : Prop :=
  ∀ env s a s1, g env s = (.ok a, s1) →
    (g env s1).1 = .ok a ∧ ((g env s1).2).events = s1.events

/-- Lookup of `calib_dict[K][T]` as one partial operation. -/
def ltype (cd : Cache) (K T : String) : Option PyVal :=
  match alget cd K with
  | some sub => alget sub T
  | none => none

/-- The current slit mask (empty when no slit-trace object is resident). -/
def slitMask (s : CState) : Mask :=
  match s.slits with
  | .slitsV st => st.mask
  | _ => []

/-- The current number of slits (0 when no slit-trace object is resident). -/
def slitN (s : CState) : Nat :=
  match s.slits with
  | .slitsV st => st.nslits
  | _ => 0

/-- `a` is contained in `b` as a per-slit mask (bitwise-or subset order). -/
def maskSub (a b : Mask) : Prop := maskLor a b = b

/-- The per-slit mask contribution `get_wv_calib` ORs into the shared slit
mask: the cached `wvmask` on a full cache hit, else the freshly computed
`make_maskslits` mask. -/
def wvContrib (env : Env) (s : CState) : Mask :=
  match alget s.master_key_dict "arc" with
  | none => []
  | some Ka =>
    match ltype s.calib_dict Ka "wavecalib", ltype s.calib_dict Ka "wvmask" with
    | some _, some wm => (maskOf wm).getD []
    | _, _ => env.make_maskslits (slitN s)

/-- The per-slit mask contribution `get_tilts` ORs into the shared slit
mask: the cached `wtmask` on a full cache hit; a zero mask when the tilts
dict loads from disk; else the mask the builder run returns. -/
def tiltsContrib (env : Env) (s : CState) : Mask :=
  match alget s.master_key_dict "tilt" with
  | none => []
  | some Kt =>
    match ltype s.calib_dict Kt "tilts_dict", ltype s.calib_dict Kt "wtmask" with
    | some _, some wt => (maskOf wt).getD []
    | _, _ =>
      match env.tilts_load with
      | some _ => List.replicate (slitN s) false
      | none => env.tilts_run.2

/-- A configured state whose caches already hold a wavelength calibration
and a tilts solution, poised for both mask-merging getters. -/
def stW : CState :=
  { stC with
    msarc := .img [[1]], msbpm := .img [[0, 0]], mstilt := .img [[3]],
    wv_calib := .wvcalibV 9,
    slits := .slitsV { nslits := 2, mask := [false, false] },
    master_key_dict := [("frame", "K5_1"), ("arc", "KA"), ("tilt", "KT")],
    calib_dict :=
      [("KA", [("wavecalib", .wvcalibV 7), ("wvmask", .maskV [true, false])]),
       ("KT", [("tilts_dict", .tiltsDictV [[4]]), ("wtmask", .maskV [false, true])])] }

theorem alget_alset_self {α : Type} (l : List (String × α)) (k : String) (v : α) :
    alget (alset l k v) k = some v := by
  induction l with
  | nil => simp [alget, alset]
  | cons h t ih =>
    obtain ⟨k', w⟩ := h
    by_cases hk : k' = k
    · simp [alget, alset, hk]
    · simp [alget, alset, hk, ih]

theorem alget_alset_ne {α : Type} (l : List (String × α)) (k k' : String) (v : α)
    (h : k' ≠ k) : alget (alset l k v) k' = alget l k' := by
  induction l with
  | nil =>
    simp only [alset, alget, if_neg (fun hh : k = k' => h hh.symm)]
  | cons hd t ih =>
    obtain ⟨k0, w⟩ := hd
    by_cases hk : k0 = k
    · subst hk
      have hne : ¬k0 = k' := fun hh => h hh.symm
      simp only [alset, if_pos rfl, alget, if_neg hne]
    · simp only [alset, if_neg hk, alget]
      by_cases hk' : k0 = k'
      · simp [hk']
      · simp [hk', ih]

theorem cached_absent {s : CState} {T K : String}
    (h : alget s.calib_dict K = none) :
    cached s T K = (false, { s with calib_dict := alset s.calib_dict K [] }) := by
  simp [cached, h]

theorem cached_no_type {s : CState} {T K : String} {sub : List (String × PyVal)}
    (hk : alget s.calib_dict K = some sub) (ht : alget sub T = none) :
    cached s T K
      = (false, { s with calib_dict := alset s.calib_dict K (alset sub T .emptyDict) }) := by
  simp [cached, hk, ht]

theorem cached_hit {s : CState} {T K : String} {sub : List (String × PyVal)} {v : PyVal}
    (hk : alget s.calib_dict K = some sub) (ht : alget sub T = some v) :
    cached s T K = (true, s) := by
  simp [cached, hk, ht]

theorem getArtifact_eq {s : CState} {T K : String} {sub : List (String × PyVal)} {v : PyVal}
    (hk : alget s.calib_dict K = some sub) (ht : alget sub T = some v) :
    getArtifact s K T = v := by
  simp [getArtifact, hk, ht]

theorem update_cache_ok {s : CState} {name T K : String} {v : PyVal}
    {sub : List (String × PyVal)}
    (hn : alget s.master_key_dict name = some K)
    (hk : alget s.calib_dict K = some sub) :
    update_cache s name T v
      = (.ok (), { s with calib_dict := alset s.calib_dict K (alset sub T v) }) := by
  simp [update_cache, cachePut, hn, hk]

/-! Concrete fixtures used by witness theorems. -/

/-- C2: `_cached(P, K)` on an unknown key K inserts an empty entry for K and
returns False; on a known key lacking product type P it inserts an empty
placeholder under `(K, P)` and returns False; in both cases (indeed after
any `_cached` call) K is a registered key, so a raw cache store
(`calib_dict[K][Q] = v`, the `put` of `_update_cache`) succeeds without a
`KeyError` for any product type Q. -/
theorem spec_c2_cached_preinsertion (s : CState) (P K : String) :
    (alget s.calib_dict K = none →
        (cached s P K).1 = false
        ∧ alget ((cached s P K).2).calib_dict K = some [])
    ∧ (∀ sub, alget s.calib_dict K = some sub → alget sub P = none →
        (cached s P K).1 = false
        ∧ alget ((cached s P K).2).calib_dict K = some (alset sub P .emptyDict))
    ∧ (∀ Q v, ∃ cd, cachePut ((cached s P K).2).calib_dict K Q v = some cd) := by
  refine ⟨?_, ?_, ?_⟩
  · intro h
    rw [cached_absent h]
    exact ⟨rfl, by simpa using alget_alset_self s.calib_dict K []⟩
  · intro sub hk hp
    rw [cached_no_type hk hp]
    exact ⟨rfl, by simpa using alget_alset_self s.calib_dict K _⟩
  · intro Q v
    rcases hk : alget s.calib_dict K with _ | sub
    · rw [cached_absent hk]
      simp [cachePut, alget_alset_self]
    · rcases hp : alget sub P with _ | w
      · rw [cached_no_type hk hp]
        simp [cachePut, alget_alset_self]
      · rw [cached_hit hk hp]
        simp [cachePut, hk]

/-- Witness for C2 at a concrete fresh state and keys. -/
theorem spec_c2_witness :
    (cached st0 "arc" "KA").1 = false
    ∧ alget ((cached st0 "arc" "KA").2).calib_dict "KA" = some []
    ∧ ∃ cd, cachePut ((cached st0 "arc" "KA").2).calib_dict "KA" "bias" .emptyDict = some cd :=
  ⟨((spec_c2_cached_preinsertion st0 "arc" "KA").1 (by decide)).1,
   ((spec_c2_cached_preinsertion st0 "arc" "KA").1 (by decide)).2,
   (spec_c2_cached_preinsertion st0 "arc" "KA").2.2 "bias" .emptyDict⟩

/-- C10 counterexample: on a wholly-new key, two successive `_cached` calls
both return False (the first call inserts only the empty key entry, not the
`(K, P)` placeholder), refuting "False the first time and True the second". -/
theorem spec_c10_cex :
    (cached st0 "arc" "KX").1 = false
    ∧ (cached ((cached st0 "arc" "KX").2) "arc" "KX").1 = false := by
  decide

/-- C10 (amended): for a key K already present in the cache whose entry
lacks product type P, `_cached(P, K)` twice in succession returns False then
True, and the hit then fetches the empty placeholder dict inserted by the
first call, not a built artifact. -/
theorem spec_c10_amended (s : CState) (P K : String) (sub : List (String × PyVal))
    (hk : alget s.calib_dict K = some sub) (hp : alget sub P = none) :
    (cached s P K).1 = false
    ∧ (cached ((cached s P K).2) P K).1 = true
    ∧ getArtifact ((cached s P K).2) K P = .emptyDict := by
  rw [cached_no_type hk hp]
  have hk2 : alget (alset s.calib_dict K (alset sub P .emptyDict)) K
      = some (alset sub P .emptyDict) := alget_alset_self _ _ _
  have hp2 : alget (alset sub P .emptyDict) P = some .emptyDict :=
    alget_alset_self _ _ _
  refine ⟨rfl, ?_, ?_⟩
  · rw [cached_hit (s := { s with calib_dict := alset s.calib_dict K (alset sub P .emptyDict) }) hk2 hp2]
  · exact getArtifact_eq hk2 hp2

/-- Witness for the amended C10 at a concrete known key. -/
theorem spec_c10_witness :
    (cached { st0 with calib_dict := [("KA", [])] } "arc" "KA").1 = false
    ∧ (cached ((cached { st0 with calib_dict := [("KA", [])] } "arc" "KA").2) "arc" "KA").1 = true
    ∧ getArtifact ((cached { st0 with calib_dict := [("KA", [])] } "arc" "KA").2) "KA" "arc"
        = .emptyDict :=
  spec_c10_amended { st0 with calib_dict := [("KA", [])] } "arc" "KA" []
    (by decide) (by decide)

theorem chk_set_dcp {s : CState} {d cid : Nat} (hd : s.det = some d)
    (hc : s.calib_ID = some cid) :
    chk_set s ["det", "calib_ID", "par"] = .ok () := by
  simp [chk_set, List.find?, attrIsNone, hd, hc]

/-- C8: `set_config` resets every per-run scratch attribute that
`_reset_internals` covers (shape, msarc, msbias, msbpm, slits, wavecalib,
tilts_dict, the two flats, mswave, calib_ID, master_key_dict) to None/empty
— the reset step leaves the cache untouched, and after the call the
master-key table holds only the fresh `frame` entry and `calib_ID` the
fresh group id — while `calib_dict` survives unchanged unless `rm_cache`
is set, in which case it is emptied. -/
theorem spec_c8_set_config_reset (env : Env) (s : CState) (frame det : Nat)
    (par : Option Params) (calib_id : Option Nat) (rm : Bool) :
    (reset_internals s).shape = none
    ∧ (reset_internals s).calib_ID = none
    ∧ (reset_internals s).master_key_dict = []
    ∧ (reset_internals s).calib_dict = s.calib_dict
    ∧ (set_config env s frame det par calib_id rm).msarc = .pynone
    ∧ (set_config env s frame det par calib_id rm).msbias = .pynone
    ∧ (set_config env s frame det par calib_id rm).msbpm = .pynone
    ∧ (set_config env s frame det par calib_id rm).slits = .pynone
    ∧ (set_config env s frame det par calib_id rm).wavecalib = .pynone
    ∧ (set_config env s frame det par calib_id rm).tilts_dict = .pynone
    ∧ (set_config env s frame det par calib_id rm).mspixelflat = .pynone
    ∧ (set_config env s frame det par calib_id rm).msillumflat = .pynone
    ∧ (set_config env s frame det par calib_id rm).mswave = .pynone
    ∧ (set_config env s frame det par calib_id rm).shape = none
    ∧ (set_config env s frame det par calib_id rm).master_key_dict
        = [("frame", env.master_key frame det)]
    ∧ (set_config env s frame det par calib_id rm).calib_dict
        = (if rm then [] else s.calib_dict) := by
  rcases par with _ | p <;> rcases calib_id with _ | c <;>
    unfold set_config reset_internals <;>
    by_cases hg : 1 < (env.calib_groups frame).length <;>
    cases rm <;> simp [hg, alset]

/-- C6: with zero raw frames of the needed role in the calibration group,
`get_tiltimg` raises a fatal error, while `get_bias` and `get_arc` derive
their master key from the context frame and return normally. -/
theorem spec_c6_zero_frames (env : Env) (s : CState) (f d cid : Nat)
    (hf : s.frame = some f) (hd : s.det = some d) (hc : s.calib_ID = some cid) :
    (env.find_frames "tilt" cid = [] →
        get_tiltimg env s
          = (.err "Must identify tilt frames to construct tilt image.", s))
    ∧ (env.find_frames "bias" cid = [] →
        (∃ a, (get_bias env s).1 = .ok a)
        ∧ alget ((get_bias env s).2).master_key_dict "bias"
            = some (env.master_key f d))
    ∧ (env.find_frames "arc" cid = [] →
        (∃ a, (get_arc env s).1 = .ok a)
        ∧ alget ((get_arc env s).2).master_key_dict "arc"
            = some (env.master_key f d)) := by
  refine ⟨?_, ?_, ?_⟩
  · intro h0
    unfold get_tiltimg
    rw [chk_set_dcp hd hc]
    simp [hc, h0]
  · intro h0
    rcases hk : alget s.calib_dict (env.master_key f d) with _ | sub
    · rcases hl : env.bias_load with _ | i
      · by_cases hs : s.save_masters = true <;>
          simp [get_bias, chk_set, List.find?, attrIsNone, hd, hc, hf, h0,
            roleKey, repFrame, cached, hk, hl, hs, logEv, update_cache, cachePut,
            alget_alset_self, getArtifact]
      · simp [get_bias, chk_set, List.find?, attrIsNone, hd, hc, hf, h0,
          roleKey, repFrame, cached, hk, hl, logEv, update_cache, cachePut,
          alget_alset_self, getArtifact]
    · rcases hv : alget sub "bias" with _ | v
      · rcases hl : env.bias_load with _ | i
        · by_cases hs : s.save_masters = true <;>
            simp [get_bias, chk_set, List.find?, attrIsNone, hd, hc, hf, h0,
              roleKey, repFrame, cached, hk, hv, hl, hs, logEv, update_cache, cachePut,
              alget_alset_self, getArtifact]
        · simp [get_bias, chk_set, List.find?, attrIsNone, hd, hc, hf, h0,
            roleKey, repFrame, cached, hk, hv, hl, logEv, update_cache, cachePut,
            alget_alset_self, getArtifact]
      · simp [get_bias, chk_set, List.find?, attrIsNone, hd, hc, hf, h0,
          roleKey, repFrame, cached, hk, hv, logEv, update_cache, cachePut,
          alget_alset_self, getArtifact]
  · intro h0
    rcases hk : alget s.calib_dict (env.master_key f d) with _ | sub
    · rcases hl : env.arc_load with _ | i
      · by_cases hs : s.save_masters = true <;>
          simp [get_arc, chk_set, List.find?, attrIsNone, hd, hc, hf, h0,
            roleKey, repFrame, cached, hk, hl, hs, logEv, update_cache, cachePut,
            alget_alset_self, getArtifact]
      · simp [get_arc, chk_set, List.find?, attrIsNone, hd, hc, hf, h0,
          roleKey, repFrame, cached, hk, hl, logEv, update_cache, cachePut,
          alget_alset_self, getArtifact]
    · rcases hv : alget sub "arc" with _ | v
      · rcases hl : env.arc_load with _ | i
        · by_cases hs : s.save_masters = true <;>
            simp [get_arc, chk_set, List.find?, attrIsNone, hd, hc, hf, h0,
              roleKey, repFrame, cached, hk, hv, hl, hs, logEv, update_cache, cachePut,
              alget_alset_self, getArtifact]
        · simp [get_arc, chk_set, List.find?, attrIsNone, hd, hc, hf, h0,
            roleKey, repFrame, cached, hk, hv, hl, logEv, update_cache, cachePut,
            alget_alset_self, getArtifact]
      · simp [get_arc, chk_set, List.find?, attrIsNone, hd, hc, hf, h0,
          roleKey, repFrame, cached, hk, hv, logEv, update_cache, cachePut,
          alget_alset_self, getArtifact]

/-- Witness for C6 at a concrete configured state with an empty group. -/
theorem spec_c6_witness :
    get_tiltimg env6 stC
      = (.err "Must identify tilt frames to construct tilt image.", stC)
    ∧ ((∃ a, (get_bias env6 stC).1 = .ok a)
        ∧ alget ((get_bias env6 stC).2).master_key_dict "bias"
            = some (env6.master_key 5 1))
    ∧ ((∃ a, (get_arc env6 stC).1 = .ok a)
        ∧ alget ((get_arc env6 stC).2).master_key_dict "arc"
            = some (env6.master_key 5 1)) :=
  ⟨(spec_c6_zero_frames env6 stC 5 1 1 rfl rfl rfl).1 rfl,
   (spec_c6_zero_frames env6 stC 5 1 1 rfl rfl rfl).2.1 rfl,
   (spec_c6_zero_frames env6 stC 5 1 1 rfl rfl rfl).2.2 rfl⟩

/-- C4 counterexample: with `flatfield.method = skip` but the slit trace
missing, `get_flats` raises the fatal upstream-check error instead of
returning `(None, None)` with a warning — the skip short-circuit sits after
a fatal check of arc, bpm, slits and wv_calib. -/
theorem spec_c4_cex :
    (get_flats env0 stNoSlits).1
      = .err "Must have the arc, bpm, slits, and wv_calib defined to proceed!" := by
  decide

/-- C4 (amended): when `flatfield.method = skip` and the fatal upstream
check passes (msarc, msbpm, slits and wv_calib all non-null), `get_flats`
sets both flats to None, returns `(None, None)`, emits exactly one warning
and performs no builder calls, regardless of tilt availability; a missing
slit trace (or arc, bpm, wv_calib) is instead fatal at the initial check. -/
theorem spec_c4_amended (env : Env) (s : CState)
    (hm : s.parSet.flatfield_method = "skip")
    (ha : s.msarc ≠ .pynone) (hb : s.msbpm ≠ .pynone)
    (hs : s.slits ≠ .pynone) (hw : s.wv_calib ≠ .pynone) :
    get_flats env s
      = (.ok (.pynone, .pynone),
         { s with mspixelflat := .pynone, msillumflat := .pynone,
                  warnings := s.warnings + 1 }) := by
  unfold get_flats
  simp [chk_objs, List.find?, attrObj, ha, hb, hs, hw, hm]

/-- Witness for the amended C4: skip-flats with slits present and tilts
absent returns `(None, None)` with exactly one new warning and no events. -/
theorem spec_c4_witness :
    get_flats env0 { stNoSlits with slits := .slitsV { nslits := 2, mask := [false, false] } }
      = (.ok (.pynone, .pynone),
         { stNoSlits with slits := .slitsV { nslits := 2, mask := [false, false] },
                          mspixelflat := .pynone, msillumflat := .pynone,
                          warnings := stNoSlits.warnings + 1 }) :=
  spec_c4_amended env0
    { stNoSlits with slits := .slitsV { nslits := 2, mask := [false, false] } }
    (by decide) (by decide) (by decide) (by decide) (by decide)

/-- C3: in pixel-reference mode with no cached wavelength calibration the
source reads the never-assigned attribute `self.maskslits`
(calibrations.py:848), so `get_wv_calib` raises `AttributeError` instead of
returning a null calibration with a zero mask merge; `get_wave`, by
contrast, does return `tilts * (nspec - 1)` from the cached tilts with no
builder interaction when it reaches its pixel branch. -/
theorem spec_c3_pixel_shortcircuit :
    (get_wv_calib env0 stPix).1 = .err "AttributeError: maskslits"
    ∧ (get_wave env0
          { stPix with tilts_dict := .tiltsDictV [[1, 2], [3, 4]],
                       wv_calib := .wvcalibV 7 }).1
        = .ok (.img (scaleImg [[1, 2], [3, 4]]))
    ∧ ((get_wave env0
          { stPix with tilts_dict := .tiltsDictV [[1, 2], [3, 4]],
                       wv_calib := .wvcalibV 7 }).2).events = stPix.events := by
  refine ⟨by decide, by decide, by decide⟩

/-- C7: when the edge-tracing algorithm crashes during the build path of
`get_slits`, the partial edge state is saved to disk (the `edges.save`
event is in the log) and only then is the fatal error raised. -/
theorem spec_c7_durability (env : Env) (s : CState) (d cid : Nat)
    (hq : s.write_qa = false) (hb : s.msbpm ≠ .pynone)
    (hd : s.det = some d) (hc : s.calib_ID = some cid)
    (hmiss : ∀ sub, alget s.calib_dict (roleKey env "trace" s.frame s.calib_ID s.det) = some sub →
        alget sub "trace" = none)
    (hreuse : s.reuse_masters = false)
    (hauto : env.auto_trace_ok = false) :
    (get_slits env false s).1
      = .err "Crashed out of finding the slits. Have saved the work done to disk but it needs fixing."
    ∧ Event.save "edges" ∈ ((get_slits env false s).2).events := by
  rcases hk : alget s.calib_dict (roleKey env "trace" s.frame s.calib_ID s.det) with _ | sub
  · rw [hd, hc] at hk
    simp [get_slits, get_slits.get_slits_build, hq, chk_objs, List.find?,
      attrObj, hb, chk_set, attrIsNone, hd, hc, cached, hk, hreuse, hauto, logEv]
  · have ht := hmiss sub hk
    rw [hd, hc] at hk
    simp [get_slits, get_slits.get_slits_build, hq, chk_objs, List.find?,
      attrObj, hb, chk_set, attrIsNone, hd, hc, cached, hk, ht, hreuse, hauto, logEv]

/-- Witness for C7 at a concrete configured state with a BPM available. -/
theorem spec_c7_witness :
    (get_slits env7 false { stC with msbpm := .img [[0, 0]] }).1
      = .err "Crashed out of finding the slits. Have saved the work done to disk but it needs fixing."
    ∧ Event.save "edges"
        ∈ ((get_slits env7 false { stC with msbpm := .img [[0, 0]] }).2).events :=
  spec_c7_durability env7 { stC with msbpm := .img [[0, 0]] } 1 1
    (by decide) (by decide) (by decide) (by decide)
    (by intro sub h; simp [stC, st0, alget] at h) (by decide) (by decide)

theorem update_cache_err_msg {s : CState} {name T : String} {v : PyVal} {m : String}
    {s' : CState} (h : update_cache s name T v = (.err m, s')) :
    m = "KeyError: master_key_dict" ∨ m = "KeyError: calib_dict" := by
  unfold update_cache at h
  rcases hn : alget s.master_key_dict name with _ | K
  · rw [hn] at h
    dsimp only at h
    left
    exact ((Res.err.injEq _ _).mp (congrArg Prod.fst h)).symm
  · rw [hn] at h
    dsimp only at h
    rcases hp : cachePut s.calib_dict K T v with _ | cd
    · rw [hp] at h
      dsimp only at h
      right
      exact ((Res.err.injEq _ _).mp (congrArg Prod.fst h)).symm
    · rw [hp] at h
      dsimp only at h
      exact absurd (congrArg Prod.fst h) (by simp)

theorem update_cache2_err_msg {s : CState} {name T1 T2 : String} {v1 v2 : PyVal}
    {m : String} {s' : CState}
    (h : update_cache2 s name T1 v1 T2 v2 = (.err m, s')) :
    m = "KeyError: master_key_dict" ∨ m = "KeyError: calib_dict" := by
  unfold update_cache2 at h
  rcases hu : update_cache s name T1 v1 with ⟨r, t⟩
  rw [hu] at h
  rcases r with _ | m1
  · dsimp only at h
    exact update_cache_err_msg h
  · dsimp only at h
    have h1 := ((Res.err.injEq _ _).mp (congrArg Prod.fst h))
    exact h1 ▸ update_cache_err_msg hu

theorem wv_calib_err_msgs (env : Env) (s : CState) (d cid : Nat) (K : String)
    (ha : s.msarc ≠ .pynone) (hb : s.msbpm ≠ .pynone) (hsl : s.slits ≠ .pynone)
    (hd : s.det = some d) (hc : s.calib_ID = some cid)
    (hk : alget s.master_key_dict "arc" = some K) :
    ∀ m, (get_wv_calib env s).1 = .err m →
      m ∈ ["TypeError: slits.mask", "AttributeError: maskslits",
           "IndexError: arc_files", "AttributeError: slits.nslits",
           "KeyError: master_key_dict", "KeyError: calib_dict"] := by
  have hobj : chk_objs s ["msarc", "msbpm", "slits"] = (true, s) := by
    simp [chk_objs, List.find?, attrObj, ha, hb, hsl]
  intro m hm
  unfold get_wv_calib at hm
  rw [hobj] at hm
  dsimp only at hm
  rw [chk_set_dcp hd hc] at hm
  dsimp only at hm
  rw [hk] at hm
  dsimp only at hm
  repeat' split at hm
  all_goals dsimp only at hm
  all_goals
    first
    | (simp only [Res.err.injEq] at hm
       subst hm
       decide)
    | (rename_i hequ
       simp only [Res.err.injEq] at hm
       subst hm
       rcases update_cache2_err_msg hequ with h | h <;> simp [h])
    | simp at hm

theorem get_arc_ok_inv (env : Env) (s : CState) :
    ∀ a, (get_arc env s).1 = .ok a →
      ((get_arc env s).2).msarc = a
      ∧ ∃ K, alget ((get_arc env s).2).master_key_dict "arc" = some K := by
  intro a ha
  rcases hchk : chk_set s ["det", "calib_ID", "par"] with _ | me
  · rcases hk : alget s.calib_dict (roleKey env "arc" s.frame s.calib_ID s.det) with _ | sub
    · rcases hl : env.arc_load with _ | i
      · by_cases hs : s.save_masters = true <;>
        · simp only [get_arc, hchk, cached, hk, hl, hs, logEv, update_cache,
            cachePut, alget_alset_self, getArtifact] at ha ⊢
          simp_all [alget_alset_self]
      · simp only [get_arc, hchk, cached, hk, hl, logEv, update_cache,
          cachePut, alget_alset_self, getArtifact] at ha ⊢
        simp_all [alget_alset_self]
    · rcases hv : alget sub "arc" with _ | v
      · rcases hl : env.arc_load with _ | i
        · by_cases hs : s.save_masters = true <;>
          · simp only [get_arc, hchk, cached, hk, hv, hl, hs, logEv, update_cache,
              cachePut, alget_alset_self, getArtifact] at ha ⊢
            simp_all [alget_alset_self]
        · simp only [get_arc, hchk, cached, hk, hv, hl, logEv, update_cache,
            cachePut, alget_alset_self, getArtifact] at ha ⊢
          simp_all [alget_alset_self]
      · simp only [get_arc, hchk, cached, hk, hv, logEv, update_cache,
          cachePut, alget_alset_self, getArtifact] at ha ⊢
        simp_all [alget_alset_self]
  · simp [get_arc, hchk] at ha

/-- C5 counterexample: on a freshly configured orchestrator (all scratch
attributes None), `get_wv_calib` before `get_arc` raises the fatal
upstream-objects error, not an error naming the missing arc key: the
artifact-nullness check fires before the arc-key-table check. -/
theorem spec_c5_cex :
    (get_wv_calib env0 stC).1 = .err "dont have all the objects"
    ∧ (get_wv_calib env0 stC).1
        ≠ .err "Arc master key not set.  First run get_arc." := by
  decide

/-- C5 (amended): on a freshly configured orchestrator (null msarc),
`get_wv_calib` raises the fatal upstream-objects error; the key-table check
naming the missing arc key fires only when msarc, msbpm and slits are
non-null but the internal `arc` master key is unset; with the key set the
call proceeds past both checks; and a successful `get_arc` establishes
exactly that state (msarc set to the returned artifact, `arc` key
registered). -/
theorem spec_c5_order_dependency :
    (∀ (env : Env) (s : CState), s.msarc = .pynone →
        (get_wv_calib env s).1 = .err "dont have all the objects")
    ∧ (∀ (env : Env) (s : CState) (d cid : Nat),
        s.msarc ≠ .pynone → s.msbpm ≠ .pynone → s.slits ≠ .pynone →
        s.det = some d → s.calib_ID = some cid →
        alget s.master_key_dict "arc" = none →
        (get_wv_calib env s).1 = .err "Arc master key not set.  First run get_arc.")
    ∧ (∀ (env : Env) (s : CState) (d cid : Nat) (K : String),
        s.msarc ≠ .pynone → s.msbpm ≠ .pynone → s.slits ≠ .pynone →
        s.det = some d → s.calib_ID = some cid →
        alget s.master_key_dict "arc" = some K →
        (get_wv_calib env s).1 ≠ .err "dont have all the objects"
        ∧ (get_wv_calib env s).1 ≠ .err "Arc master key not set.  First run get_arc.")
    ∧ (∀ (env : Env) (s : CState) (a : PyVal), (get_arc env s).1 = .ok a →
        ((get_arc env s).2).msarc = a
        ∧ ∃ K, alget ((get_arc env s).2).master_key_dict "arc" = some K) := by
  refine ⟨?_, ?_, ?_, get_arc_ok_inv⟩
  · intro env s h
    unfold get_wv_calib
    simp [chk_objs, List.find?, attrObj, h]
  · intro env s d cid ha hb hsl hd hc hk
    have hobj : chk_objs s ["msarc", "msbpm", "slits"] = (true, s) := by
      simp [chk_objs, List.find?, attrObj, ha, hb, hsl]
    unfold get_wv_calib
    rw [hobj]
    dsimp only
    rw [chk_set_dcp hd hc]
    dsimp only
    rw [hk]
  · intro env s d cid K ha hb hsl hd hc hk
    have hmsg := wv_calib_err_msgs env s d cid K ha hb hsl hd hc hk
    constructor
    · intro hcontra
      have := hmsg _ hcontra
      simp at this
    · intro hcontra
      have := hmsg _ hcontra
      simp at this

/-- Witness for the amended C5 at concrete states: each of the four
conjuncts instantiated with its hypotheses discharged. -/
theorem spec_c5_witness :
    (get_wv_calib env0 stC).1 = .err "dont have all the objects"
    ∧ (get_wv_calib env0 stWv).1
        = .err "Arc master key not set.  First run get_arc."
    ∧ ((get_wv_calib env0
          { stWv with master_key_dict := [("frame", "K5_1"), ("arc", "KA")] }).1
        ≠ .err "dont have all the objects"
      ∧ (get_wv_calib env0
          { stWv with master_key_dict := [("frame", "K5_1"), ("arc", "KA")] }).1
        ≠ .err "Arc master key not set.  First run get_arc.")
    ∧ (((get_arc env0 stC).2).msarc = .img [[1]]
      ∧ ∃ K, alget ((get_arc env0 stC).2).master_key_dict "arc" = some K) :=
  ⟨spec_c5_order_dependency.1 env0 stC (by decide),
   spec_c5_order_dependency.2.1 env0 stWv 1 1 (by decide) (by decide) (by decide)
     (by decide) (by decide) (by decide),
   spec_c5_order_dependency.2.2.1 env0
     { stWv with master_key_dict := [("frame", "K5_1"), ("arc", "KA")] } 1 1 "KA"
     (by decide) (by decide) (by decide) (by decide) (by decide) (by decide),
   spec_c5_order_dependency.2.2.2 env0 stC (.img [[1]]) (by decide)⟩

theorem idemHit_get_arc : idemHit get_arc := by
  intro env s a s1 h
  rcases hd : s.det with _ | d
  · simp [get_arc, chk_set, List.find?, attrIsNone, hd] at h
  rcases hc : s.calib_ID with _ | cid
  · simp [get_arc, chk_set, List.find?, attrIsNone, hd, hc] at h
  rcases hk : alget s.calib_dict (roleKey env "arc" s.frame s.calib_ID s.det) with _ | sub <;>
    rw [hd, hc] at hk
  · rcases hl : env.arc_load with _ | i
    · rcases hs : s.save_masters with _ | _ <;>
      · simp [get_arc, chk_set, List.find?, attrIsNone, hd, hc, cached, hk,
          hl, hs, logEv, update_cache, cachePut, alget_alset_self, getArtifact] at h
        obtain ⟨h1, h2⟩ := h
        subst h1
        subst h2
        simp [get_arc, chk_set, List.find?, attrIsNone, hd, hc, cached,
          alget_alset_self, getArtifact]
    · simp [get_arc, chk_set, List.find?, attrIsNone, hd, hc, cached, hk,
        hl, logEv, update_cache, cachePut, alget_alset_self, getArtifact] at h
      obtain ⟨h1, h2⟩ := h
      subst h1
      subst h2
      simp [get_arc, chk_set, List.find?, attrIsNone, hd, hc, cached,
        alget_alset_self, getArtifact]
  · rcases hv : alget sub "arc" with _ | v
    · rcases hl : env.arc_load with _ | i
      · rcases hs : s.save_masters with _ | _ <;>
        · simp [get_arc, chk_set, List.find?, attrIsNone, hd, hc, cached, hk,
            hv, hl, hs, logEv, update_cache, cachePut, alget_alset_self, getArtifact] at h
          obtain ⟨h1, h2⟩ := h
          subst h1
          subst h2
          simp [get_arc, chk_set, List.find?, attrIsNone, hd, hc, cached,
            alget_alset_self, getArtifact]
      · simp [get_arc, chk_set, List.find?, attrIsNone, hd, hc, cached, hk,
          hv, hl, logEv, update_cache, cachePut, alget_alset_self, getArtifact] at h
        obtain ⟨h1, h2⟩ := h
        subst h1
        subst h2
        simp [get_arc, chk_set, List.find?, attrIsNone, hd, hc, cached,
          alget_alset_self, getArtifact]
    · simp [get_arc, chk_set, List.find?, attrIsNone, hd, hc, cached, hk,
        hv, getArtifact] at h
      obtain ⟨h1, h2⟩ := h
      subst h1
      subst h2
      simp [get_arc, chk_set, List.find?, attrIsNone, hd, hc, cached, hk, hv,
        getArtifact]

theorem idemHit_get_bias : idemHit get_bias := by
  intro env s a s1 h
  rcases hd : s.det with _ | d
  · simp [get_bias, chk_set, List.find?, attrIsNone, hd] at h
  rcases hc : s.calib_ID with _ | cid
  · simp [get_bias, chk_set, List.find?, attrIsNone, hd, hc] at h
  rcases hk : alget s.calib_dict (roleKey env "bias" s.frame s.calib_ID s.det) with _ | sub <;>
    rw [hd, hc] at hk
  · rcases hl : env.bias_load with _ | i
    · rcases hs : s.save_masters with _ | _ <;>
      · simp [get_bias, chk_set, List.find?, attrIsNone, hd, hc, cached, hk,
          hl, hs, logEv, update_cache, cachePut, alget_alset_self, getArtifact] at h
        obtain ⟨h1, h2⟩ := h
        subst h1
        subst h2
        simp [get_bias, chk_set, List.find?, attrIsNone, hd, hc, cached,
          alget_alset_self, getArtifact]
    · simp [get_bias, chk_set, List.find?, attrIsNone, hd, hc, cached, hk,
        hl, logEv, update_cache, cachePut, alget_alset_self, getArtifact] at h
      obtain ⟨h1, h2⟩ := h
      subst h1
      subst h2
      simp [get_bias, chk_set, List.find?, attrIsNone, hd, hc, cached,
        alget_alset_self, getArtifact]
  · rcases hv : alget sub "bias" with _ | v
    · rcases hl : env.bias_load with _ | i
      · rcases hs : s.save_masters with _ | _ <;>
        · simp [get_bias, chk_set, List.find?, attrIsNone, hd, hc, cached, hk,
            hv, hl, hs, logEv, update_cache, cachePut, alget_alset_self, getArtifact] at h
          obtain ⟨h1, h2⟩ := h
          subst h1
          subst h2
          simp [get_bias, chk_set, List.find?, attrIsNone, hd, hc, cached,
            alget_alset_self, getArtifact]
      · simp [get_bias, chk_set, List.find?, attrIsNone, hd, hc, cached, hk,
          hv, hl, logEv, update_cache, cachePut, alget_alset_self, getArtifact] at h
        obtain ⟨h1, h2⟩ := h
        subst h1
        subst h2
        simp [get_bias, chk_set, List.find?, attrIsNone, hd, hc, cached,
          alget_alset_self, getArtifact]
    · simp [get_bias, chk_set, List.find?, attrIsNone, hd, hc, cached, hk,
        hv, getArtifact] at h
      obtain ⟨h1, h2⟩ := h
      subst h1
      subst h2
      simp [get_bias, chk_set, List.find?, attrIsNone, hd, hc, cached, hk, hv,
        getArtifact]

theorem idemHit_get_tiltimg : idemHit get_tiltimg := by
  intro env s a s1 h
  rcases hd : s.det with _ | d
  · simp [get_tiltimg, chk_set, List.find?, attrIsNone, hd] at h
  rcases hc : s.calib_ID with _ | cid
  · simp [get_tiltimg, chk_set, List.find?, attrIsNone, hd, hc] at h
  by_cases hrows : env.find_frames "tilt" cid = []
  · simp [get_tiltimg, chk_set, List.find?, attrIsNone, hd, hc, hrows] at h
  rcases hk : alget s.calib_dict (roleKey env "tilt" s.frame s.calib_ID s.det) with _ | sub <;>
    rw [hd, hc] at hk
  · rcases hl : env.tiltimg_load with _ | i
    · rcases hs : s.save_masters with _ | _ <;>
      · simp [get_tiltimg, chk_set, List.find?, attrIsNone, hd, hc, hrows, cached, hk,
          hl, hs, logEv, update_cache, cachePut, alget_alset_self, getArtifact] at h
        obtain ⟨h1, h2⟩ := h
        subst h1
        subst h2
        simp [get_tiltimg, chk_set, List.find?, attrIsNone, hd, hc, hrows, cached,
          alget_alset_self, getArtifact]
    · simp [get_tiltimg, chk_set, List.find?, attrIsNone, hd, hc, hrows, cached, hk,
        hl, logEv, update_cache, cachePut, alget_alset_self, getArtifact] at h
      obtain ⟨h1, h2⟩ := h
      subst h1
      subst h2
      simp [get_tiltimg, chk_set, List.find?, attrIsNone, hd, hc, hrows, cached,
        alget_alset_self, getArtifact]
  · rcases hv : alget sub "tiltimg" with _ | v
    · rcases hl : env.tiltimg_load with _ | i
      · rcases hs : s.save_masters with _ | _ <;>
        · simp [get_tiltimg, chk_set, List.find?, attrIsNone, hd, hc, hrows, cached, hk,
            hv, hl, hs, logEv, update_cache, cachePut, alget_alset_self, getArtifact] at h
          obtain ⟨h1, h2⟩ := h
          subst h1
          subst h2
          simp [get_tiltimg, chk_set, List.find?, attrIsNone, hd, hc, hrows, cached,
            alget_alset_self, getArtifact]
      · simp [get_tiltimg, chk_set, List.find?, attrIsNone, hd, hc, hrows, cached, hk,
          hv, hl, logEv, update_cache, cachePut, alget_alset_self, getArtifact] at h
        obtain ⟨h1, h2⟩ := h
        subst h1
        subst h2
        simp [get_tiltimg, chk_set, List.find?, attrIsNone, hd, hc, hrows, cached,
          alget_alset_self, getArtifact]
    · simp [get_tiltimg, chk_set, List.find?, attrIsNone, hd, hc, hrows, cached, hk,
        hv, getArtifact] at h
      obtain ⟨h1, h2⟩ := h
      subst h1
      subst h2
      simp [get_tiltimg, chk_set, List.find?, attrIsNone, hd, hc, hrows, cached, hk, hv,
        getArtifact]

theorem cached_snd_mkd (s : CState) (T K : String) :
    ((cached s T K).2).master_key_dict = s.master_key_dict := by
  rcases hk : alget s.calib_dict K with _ | sub
  · simp [cached, hk]
  · rcases ht : alget sub T with _ | v <;> simp [cached, hk, ht]

theorem cached_snd_events (s : CState) (T K : String) :
    ((cached s T K).2).events = s.events := by
  rcases hk : alget s.calib_dict K with _ | sub
  · simp [cached, hk]
  · rcases ht : alget sub T with _ | v <;> simp [cached, hk, ht]

theorem cached_snd_det (s : CState) (T K : String) :
    ((cached s T K).2).det = s.det := by
  rcases hk : alget s.calib_dict K with _ | sub
  · simp [cached, hk]
  · rcases ht : alget sub T with _ | v <;> simp [cached, hk, ht]

theorem cached_snd_frame (s : CState) (T K : String) :
    ((cached s T K).2).frame = s.frame := by
  rcases hk : alget s.calib_dict K with _ | sub
  · simp [cached, hk]
  · rcases ht : alget sub T with _ | v <;> simp [cached, hk, ht]

theorem cached_key_present {s : CState} {K : String}
    {sub : List (String × PyVal)} (T K' : String)
    (h : alget s.calib_dict K = some sub) :
    ∃ sub', alget ((cached s T K').2).calib_dict K = some sub' := by
  by_cases hKK : K = K'
  · subst hKK
    rcases ht : alget sub T with _ | v
    · exact ⟨alset sub T .emptyDict, by simp [cached, h, ht, alget_alset_self]⟩
    · exact ⟨sub, by simp [cached, h, ht]⟩
  · rcases hk' : alget s.calib_dict K' with _ | sub2
    · exact ⟨sub, by simp [cached, hk', alget_alset_ne _ _ _ _ hKK, h]⟩
    · rcases ht : alget sub2 T with _ | v
      · exact ⟨sub, by simp [cached, hk', ht, alget_alset_ne _ _ _ _ hKK, h]⟩
      · exact ⟨sub, by simp [cached, hk', ht, h]⟩

theorem alget_alset_present {α : Type} {l : List (String × α)} {k : String}
    {sub : α} (k' : String) (v : α) (h : alget l k = some sub) :
    ∃ sub', alget (alset l k' v) k = some sub' := by
  by_cases hKK : k = k'
  · subst hKK
    exact ⟨v, alget_alset_self _ _ _⟩
  · exact ⟨sub, by rw [alget_alset_ne _ _ _ _ hKK]; exact h⟩

theorem idemHit_get_bpm : idemHit get_bpm := by
  intro env s a s1 h
  rcases hd : s.det with _ | d
  · simp [get_bpm, chk_set, List.find?, attrIsNone, hd] at h
  rcases hk : alget s.calib_dict (frameKey env s.frame s.det) with _ | sub <;>
    rw [hd] at hk
  case none =>
    by_cases hub : s.parSet.bpm_usebias = true
    · rcases hmb : alget s.master_key_dict "bias" with _ | Kb
      · have hmb2 : alget (alset s.master_key_dict "bpm" (frameKey env s.frame (some d)))
            "bias" = none := by
          rw [alget_alset_ne _ _ _ _ (by decide)]
          exact hmb
        simp [get_bpm, chk_set, List.find?, attrIsNone, hd, cached, hk, hub,
          hmb2, logEv, update_cache, cachePut, alget_alset_self,
          getArtifact] at h
      · have hmb2 : alget (alset s.master_key_dict "bpm" (frameKey env s.frame (some d)))
            "bias" = some Kb := by
          rw [alget_alset_ne _ _ _ _ (by decide)]
          exact hmb
        rcases hkb : alget (alset s.calib_dict (frameKey env s.frame (some d)) []) Kb
            with _ | subb
        · obtain ⟨sub', hsub'⟩ := alget_alset_present Kb ([] : List (String × PyVal))
            (alget_alset_self s.calib_dict (frameKey env s.frame (some d)) [])
          simp [get_bpm, chk_set, List.find?, attrIsNone, hd, cached, hk, hub,
            hmb2, hkb, hsub', logEv, update_cache, cachePut, alget_alset_self,
            getArtifact] at h
          obtain ⟨h1, h2⟩ := h
          subst h1
          subst h2
          simp [get_bpm, chk_set, List.find?, attrIsNone, hd, cached,
            alget_alset_self, getArtifact]
        · rcases hvb : alget subb "bias" with _ | vb
          · obtain ⟨sub', hsub'⟩ := alget_alset_present Kb (alset subb "bias" .emptyDict)
              (alget_alset_self s.calib_dict (frameKey env s.frame (some d)) [])
            simp [get_bpm, chk_set, List.find?, attrIsNone, hd, cached, hk, hub,
              hmb2, hkb, hvb, hsub', logEv, update_cache, cachePut, alget_alset_self,
              getArtifact] at h
            obtain ⟨h1, h2⟩ := h
            subst h1
            subst h2
            simp [get_bpm, chk_set, List.find?, attrIsNone, hd, cached,
              alget_alset_self, getArtifact]
          · simp [get_bpm, chk_set, List.find?, attrIsNone, hd, cached, hk, hub,
              hmb2, hkb, hvb, logEv, update_cache, cachePut, alget_alset_self,
              getArtifact] at h
            obtain ⟨h1, h2⟩ := h
            subst h1
            subst h2
            simp [get_bpm, chk_set, List.find?, attrIsNone, hd, cached,
              alget_alset_self, getArtifact]
    · simp [get_bpm, chk_set, List.find?, attrIsNone, hd, cached, hk, hub,
        logEv, update_cache, cachePut, alget_alset_self, getArtifact] at h
      obtain ⟨h1, h2⟩ := h
      subst h1
      subst h2
      simp [get_bpm, chk_set, List.find?, attrIsNone, hd, cached,
        alget_alset_self, getArtifact]
  case some =>
    rcases hv : alget sub "bpm" with _ | v
    · by_cases hub : s.parSet.bpm_usebias = true
      · rcases hmb : alget s.master_key_dict "bias" with _ | Kb
        · have hmb2 : alget (alset s.master_key_dict "bpm" (frameKey env s.frame (some d)))
              "bias" = none := by
            rw [alget_alset_ne _ _ _ _ (by decide)]
            exact hmb
          simp [get_bpm, chk_set, List.find?, attrIsNone, hd, cached, hk, hv, hub,
            hmb2, logEv, update_cache, cachePut, alget_alset_self, getArtifact] at h
        · have hmb2 : alget (alset s.master_key_dict "bpm" (frameKey env s.frame (some d)))
              "bias" = some Kb := by
            rw [alget_alset_ne _ _ _ _ (by decide)]
            exact hmb
          rcases hkb : alget (alset s.calib_dict (frameKey env s.frame (some d))
              (alset sub "bpm" .emptyDict)) Kb with _ | subb
          · obtain ⟨sub', hsub'⟩ := alget_alset_present Kb ([] : List (String × PyVal))
              (alget_alset_self s.calib_dict (frameKey env s.frame (some d))
                (alset sub "bpm" .emptyDict))
            simp [get_bpm, chk_set, List.find?, attrIsNone, hd, cached, hk, hv, hub,
              hmb2, hkb, hsub', logEv, update_cache, cachePut, alget_alset_self,
              getArtifact] at h
            obtain ⟨h1, h2⟩ := h
            subst h1
            subst h2
            simp [get_bpm, chk_set, List.find?, attrIsNone, hd, cached,
              alget_alset_self, getArtifact]
          · rcases hvb : alget subb "bias" with _ | vb
            · obtain ⟨sub', hsub'⟩ := alget_alset_present Kb (alset subb "bias" .emptyDict)
                (alget_alset_self s.calib_dict (frameKey env s.frame (some d))
                  (alset sub "bpm" .emptyDict))
              simp [get_bpm, chk_set, List.find?, attrIsNone, hd, cached, hk, hv, hub,
                hmb2, hkb, hvb, hsub', logEv, update_cache, cachePut, alget_alset_self,
                getArtifact] at h
              obtain ⟨h1, h2⟩ := h
              subst h1
              subst h2
              simp [get_bpm, chk_set, List.find?, attrIsNone, hd, cached,
                alget_alset_self, getArtifact]
            · simp [get_bpm, chk_set, List.find?, attrIsNone, hd, cached, hk, hv, hub,
                hmb2, hkb, hvb, logEv, update_cache, cachePut, alget_alset_self,
                getArtifact] at h
              obtain ⟨h1, h2⟩ := h
              subst h1
              subst h2
              simp [get_bpm, chk_set, List.find?, attrIsNone, hd, cached,
                alget_alset_self, getArtifact]
      · simp [get_bpm, chk_set, List.find?, attrIsNone, hd, cached, hk, hv, hub,
          logEv, update_cache, cachePut, alget_alset_self, getArtifact] at h
        obtain ⟨h1, h2⟩ := h
        subst h1
        subst h2
        simp [get_bpm, chk_set, List.find?, attrIsNone, hd, cached,
          alget_alset_self, getArtifact]
    · simp [get_bpm, chk_set, List.find?, attrIsNone, hd, cached, hk, hv,
        getArtifact] at h
      obtain ⟨h1, h2⟩ := h
      subst h1
      subst h2
      simp [get_bpm, chk_set, List.find?, attrIsNone, hd, cached, hk, hv,
        getArtifact]

theorem idemHit_get_wave : idemHit get_wave := by
  intro env s a s1 h
  by_cases ht0 : s.tilts_dict = .pynone
  · simp [get_wave, chk_objs, List.find?, attrObj, ht0] at h ⊢
    obtain ⟨h1, h2⟩ := h
    subst h1
    subst h2
    simp [get_wave, chk_objs, List.find?, attrObj, ht0]
  by_cases hs0 : s.slits = .pynone
  · simp [get_wave, chk_objs, List.find?, attrObj, ht0, hs0] at h ⊢
    obtain ⟨h1, h2⟩ := h
    subst h1
    subst h2
    simp [get_wave, chk_objs, List.find?, attrObj, ht0, hs0]
  by_cases hw0 : s.wv_calib = .pynone
  · simp [get_wave, chk_objs, List.find?, attrObj, ht0, hs0, hw0] at h ⊢
    obtain ⟨h1, h2⟩ := h
    subst h1
    subst h2
    simp [get_wave, chk_objs, List.find?, attrObj, ht0, hs0, hw0]
  rcases hd : s.det with _ | d
  · simp [get_wave, chk_objs, List.find?, attrObj, ht0, hs0, hw0, chk_set,
      attrIsNone, hd] at h
  rcases hka : alget s.master_key_dict "arc" with _ | Karc
  · simp [get_wave, chk_objs, List.find?, attrObj, ht0, hs0, hw0, chk_set,
      attrIsNone, hd, hka] at h
  rcases hk : alget s.calib_dict Karc with _ | sub
  next =>
    by_cases hpix : s.parSet.wavelengths_reference = "pixel"
    · rcases htd : s.tilts_dict with _ | i | st | sv | w | t | mk | _ <;>
        first
        | exact absurd htd ht0
        | (simp [get_wave, chk_objs, List.find?, attrObj, ht0, hs0, hw0, chk_set,
             attrIsNone, hd, hka, cached, hk, hpix, htd, cachePut,
             alget_alset_self, getArtifact] at h
           done)
        | (simp [get_wave, chk_objs, List.find?, attrObj, ht0, hs0, hw0, chk_set,
             attrIsNone, hd, hka, cached, hk, hpix, htd, cachePut,
             alget_alset_self, getArtifact] at h
           obtain ⟨h1, h2⟩ := h
           subst h1
           subst h2
           simp [get_wave, chk_objs, List.find?, attrObj, ht0, hs0, hw0, chk_set,
             attrIsNone, hd, hka, cached, htd, alget_alset_self, getArtifact])
    · rcases hl : env.wave_load with _ | i
      · rcases hsv : s.save_masters with _ | _ <;>
        · simp [get_wave, chk_objs, List.find?, attrObj, ht0, hs0, hw0, chk_set,
            attrIsNone, hd, hka, cached, hk, hpix, hl, hsv, logEv, update_cache,
            cachePut, alget_alset_self, getArtifact] at h
          obtain ⟨h1, h2⟩ := h
          subst h1
          subst h2
          simp [get_wave, chk_objs, List.find?, attrObj, ht0, hs0, hw0, chk_set,
            attrIsNone, hd, hka, cached, alget_alset_self, getArtifact]
      · simp [get_wave, chk_objs, List.find?, attrObj, ht0, hs0, hw0, chk_set,
          attrIsNone, hd, hka, cached, hk, hpix, hl, logEv, update_cache,
          cachePut, alget_alset_self, getArtifact] at h
        obtain ⟨h1, h2⟩ := h
        subst h1
        subst h2
        simp [get_wave, chk_objs, List.find?, attrObj, ht0, hs0, hw0, chk_set,
          attrIsNone, hd, hka, cached, alget_alset_self, getArtifact]
  next =>
    rcases hv : alget sub "wave" with _ | v
    · by_cases hpix : s.parSet.wavelengths_reference = "pixel"
      · rcases htd : s.tilts_dict with _ | i | st | sv | w | t | mk | _ <;>
          first
          | exact absurd htd ht0
          | (simp [get_wave, chk_objs, List.find?, attrObj, ht0, hs0, hw0, chk_set,
               attrIsNone, hd, hka, cached, hk, hv, hpix, htd, cachePut,
               alget_alset_self, getArtifact] at h
             done)
          | (simp [get_wave, chk_objs, List.find?, attrObj, ht0, hs0, hw0, chk_set,
               attrIsNone, hd, hka, cached, hk, hv, hpix, htd, cachePut,
               alget_alset_self, getArtifact] at h
             obtain ⟨h1, h2⟩ := h
             subst h1
             subst h2
             simp [get_wave, chk_objs, List.find?, attrObj, ht0, hs0, hw0, chk_set,
               attrIsNone, hd, hka, cached, htd, alget_alset_self, getArtifact])
      · rcases hl : env.wave_load with _ | i
        · rcases hsv : s.save_masters with _ | _ <;>
          · simp [get_wave, chk_objs, List.find?, attrObj, ht0, hs0, hw0, chk_set,
              attrIsNone, hd, hka, cached, hk, hv, hpix, hl, hsv, logEv,
              update_cache, cachePut, alget_alset_self, getArtifact] at h
            obtain ⟨h1, h2⟩ := h
            subst h1
            subst h2
            simp [get_wave, chk_objs, List.find?, attrObj, ht0, hs0, hw0, chk_set,
              attrIsNone, hd, hka, cached, alget_alset_self, getArtifact]
        · simp [get_wave, chk_objs, List.find?, attrObj, ht0, hs0, hw0, chk_set,
            attrIsNone, hd, hka, cached, hk, hv, hpix, hl, logEv, update_cache,
            cachePut, alget_alset_self, getArtifact] at h
          obtain ⟨h1, h2⟩ := h
          subst h1
          subst h2
          simp [get_wave, chk_objs, List.find?, attrObj, ht0, hs0, hw0, chk_set,
            attrIsNone, hd, hka, cached, alget_alset_self, getArtifact]
    · simp [get_wave, chk_objs, List.find?, attrObj, ht0, hs0, hw0, chk_set,
        attrIsNone, hd, hka, cached, hk, hv, getArtifact] at h
      obtain ⟨h1, h2⟩ := h
      subst h1
      subst h2
      simp [get_wave, chk_objs, List.find?, attrObj, ht0, hs0, hw0, chk_set,
        attrIsNone, hd, hka, cached, hk, hv, getArtifact]

theorem alget_alset2_first {α : Type} (l : List (String × α)) (k1 k2 : String)
    (v1 v2 : α) (h : k1 ≠ k2) :
    alget (alset (alset l k1 v1) k2 v2) k1 = some v1 := by
  rw [alget_alset_ne _ _ _ _ h]
  exact alget_alset_self _ _ _

theorem alget_wv2 {l : List (String × PyVal)} (v1 v2 : PyVal) :
    alget (alset (alset l "wavecalib" v1) "wvmask" v2) "wavecalib" = some v1 :=
  alget_alset2_first l "wavecalib" "wvmask" v1 v2 (by decide)

theorem alget_td2 {l : List (String × PyVal)} (v1 v2 : PyVal) :
    alget (alset (alset l "tilts_dict" v1) "wtmask" v2) "tilts_dict" = some v1 :=
  alget_alset2_first l "tilts_dict" "wtmask" v1 v2 (by decide)

theorem alget_fl2 {l : List (String × PyVal)} (v1 v2 : PyVal) :
    alget (alset (alset l "pixelflat" v1) "illumflat" v2) "pixelflat" = some v1 :=
  alget_alset2_first l "pixelflat" "illumflat" v1 v2 (by decide)

theorem orSlitMask_elim {s s' : CState} {c : PyVal} (h : orSlitMask s c = some s') :
    ∃ st m, s.slits = .slitsV st ∧ maskOf c = some m
      ∧ s' = { s with slits := .slitsV { st with mask := maskLor st.mask m } } := by
  rcases hsl : s.slits with _ | i | sv | st | w | t | mk | _ <;>
    rw [orSlitMask, hsl] at h
  case slitsV =>
    rcases hmc : maskOf c with _ | m <;> rw [hmc] at h
    · exact absurd h (by simp)
    · injection h with h2
      exact ⟨st, m, rfl, rfl, h2.symm⟩
  all_goals exact absurd h (by simp)

theorem idemHit_get_wv_calib : idemHit get_wv_calib := by
  intro env s a s1 h
  by_cases ha0 : s.msarc = .pynone
  · simp [get_wv_calib, chk_objs, List.find?, attrObj, ha0] at h
  by_cases hb0 : s.msbpm = .pynone
  · simp [get_wv_calib, chk_objs, List.find?, attrObj, ha0, hb0] at h
  by_cases hsl0 : s.slits = .pynone
  · simp [get_wv_calib, chk_objs, List.find?, attrObj, ha0, hb0, hsl0] at h
  rcases hd : s.det with _ | d
  · simp [get_wv_calib, chk_objs, List.find?, attrObj, ha0, hb0, hsl0, chk_set,
      attrIsNone, hd] at h
  rcases hc : s.calib_ID with _ | cid
  · simp [get_wv_calib, chk_objs, List.find?, attrObj, ha0, hb0, hsl0, chk_set,
      attrIsNone, hd, hc] at h
  rcases hka : alget s.master_key_dict "arc" with _ | Karc
  · simp [get_wv_calib, chk_objs, List.find?, attrObj, ha0, hb0, hsl0, chk_set,
      attrIsNone, hd, hc, hka] at h
  rcases hk : alget s.calib_dict Karc with _ | sub
  next =>
    by_cases hpix : s.parSet.wavelengths_reference = "pixel"
    · simp [get_wv_calib, chk_objs, List.find?, attrObj, ha0, hb0, hsl0, chk_set,
        attrIsNone, hd, hc, hka, cached, hk, hpix] at h
    by_cases hfp : env.frame_paths (env.find_frames "arc" cid) = []
    · simp [get_wv_calib, chk_objs, List.find?, attrObj, ha0, hb0, hsl0, chk_set,
        attrIsNone, hd, hc, hka, cached, hk, hpix, hfp] at h
    rcases hl : env.wvcalib_load with _ | wc
    · rcases hsv : s.save_masters with _ | _ <;>
      · rcases hslit : s.slits with _ | i | sv | st | w | t | mk | _ <;>
          first
          | exact absurd hslit hsl0
          | (simp [get_wv_calib, chk_objs, List.find?, attrObj, ha0, hb0, hsl0,
               chk_set, attrIsNone, hd, hc, hka, cached, hk, hpix, hfp, hl, hsv,
               hslit, logEv, update_cache2, update_cache, cachePut,
               alget_alset_self, alget_wv2, getArtifact] at h
             done)
          | (simp [get_wv_calib, chk_objs, List.find?, attrObj, ha0, hb0, hsl0,
               chk_set, attrIsNone, hd, hc, hka, cached, hk, hpix, hfp, hl, hsv,
               hslit, logEv, update_cache2, update_cache, cachePut,
               alget_alset_self, alget_wv2, getArtifact] at h
             obtain ⟨h1, h2⟩ := h
             subst h1
             subst h2
             simp [get_wv_calib, chk_objs, List.find?, attrObj, chk_set,
               attrIsNone, hd, hc, hka, cached, alget_alset_self, alget_wv2,
               getArtifact, orSlitMask, maskOf, ha0, hb0])
    · rcases hslit : s.slits with _ | i | sv | st | w | t | mk | _ <;>
        first
        | exact absurd hslit hsl0
        | (simp [get_wv_calib, chk_objs, List.find?, attrObj, ha0, hb0, hsl0,
             chk_set, attrIsNone, hd, hc, hka, cached, hk, hpix, hfp, hl,
             hslit, logEv, update_cache2, update_cache, cachePut,
             alget_alset_self, alget_wv2, getArtifact] at h
           done)
        | (simp [get_wv_calib, chk_objs, List.find?, attrObj, ha0, hb0, hsl0,
             chk_set, attrIsNone, hd, hc, hka, cached, hk, hpix, hfp, hl,
             hslit, logEv, update_cache2, update_cache, cachePut,
             alget_alset_self, alget_wv2, getArtifact] at h
           obtain ⟨h1, h2⟩ := h
           subst h1
           subst h2
           simp [get_wv_calib, chk_objs, List.find?, attrObj, chk_set,
             attrIsNone, hd, hc, hka, cached, alget_alset_self, alget_wv2,
             getArtifact, orSlitMask, maskOf, ha0, hb0])
  next =>
    rcases hv1 : alget sub "wavecalib" with _ | v1
    · by_cases hpix : s.parSet.wavelengths_reference = "pixel"
      · simp [get_wv_calib, chk_objs, List.find?, attrObj, ha0, hb0, hsl0, chk_set,
          attrIsNone, hd, hc, hka, cached, hk, hv1, hpix] at h
      by_cases hfp : env.frame_paths (env.find_frames "arc" cid) = []
      · simp [get_wv_calib, chk_objs, List.find?, attrObj, ha0, hb0, hsl0, chk_set,
          attrIsNone, hd, hc, hka, cached, hk, hv1, hpix, hfp] at h
      rcases hl : env.wvcalib_load with _ | wc
      · rcases hsv : s.save_masters with _ | _ <;>
        · rcases hslit : s.slits with _ | i | sv | st | w | t | mk | _ <;>
            first
            | exact absurd hslit hsl0
            | (simp [get_wv_calib, chk_objs, List.find?, attrObj, ha0, hb0, hsl0,
                 chk_set, attrIsNone, hd, hc, hka, cached, hk, hv1, hpix, hfp, hl,
                 hsv, hslit, logEv, update_cache2, update_cache, cachePut,
                 alget_alset_self, alget_wv2, getArtifact] at h
               done)
            | (simp [get_wv_calib, chk_objs, List.find?, attrObj, ha0, hb0, hsl0,
                 chk_set, attrIsNone, hd, hc, hka, cached, hk, hv1, hpix, hfp, hl,
                 hsv, hslit, logEv, update_cache2, update_cache, cachePut,
                 alget_alset_self, alget_wv2, getArtifact] at h
               obtain ⟨h1, h2⟩ := h
               subst h1
               subst h2
               simp [get_wv_calib, chk_objs, List.find?, attrObj, chk_set,
                 attrIsNone, hd, hc, hka, cached, alget_alset_self, alget_wv2,
                 getArtifact, orSlitMask, maskOf, ha0, hb0])
      · rcases hslit : s.slits with _ | i | sv | st | w | t | mk | _ <;>
          first
          | exact absurd hslit hsl0
          | (simp [get_wv_calib, chk_objs, List.find?, attrObj, ha0, hb0, hsl0,
               chk_set, attrIsNone, hd, hc, hka, cached, hk, hv1, hpix, hfp, hl,
               hslit, logEv, update_cache2, update_cache, cachePut,
               alget_alset_self, alget_wv2, getArtifact] at h
             done)
          | (simp [get_wv_calib, chk_objs, List.find?, attrObj, ha0, hb0, hsl0,
               chk_set, attrIsNone, hd, hc, hka, cached, hk, hv1, hpix, hfp, hl,
               hslit, logEv, update_cache2, update_cache, cachePut,
               alget_alset_self, alget_wv2, getArtifact] at h
             obtain ⟨h1, h2⟩ := h
             subst h1
             subst h2
             simp [get_wv_calib, chk_objs, List.find?, attrObj, chk_set,
               attrIsNone, hd, hc, hka, cached, alget_alset_self, alget_wv2,
               getArtifact, orSlitMask, maskOf, ha0, hb0])
    · rcases hv2 : alget sub "wvmask" with _ | v2
      · by_cases hpix : s.parSet.wavelengths_reference = "pixel"
        · simp [get_wv_calib, chk_objs, List.find?, attrObj, ha0, hb0, hsl0, chk_set,
            attrIsNone, hd, hc, hka, cached, hk, hv1, hv2, hpix] at h
        by_cases hfp : env.frame_paths (env.find_frames "arc" cid) = []
        · simp [get_wv_calib, chk_objs, List.find?, attrObj, ha0, hb0, hsl0, chk_set,
            attrIsNone, hd, hc, hka, cached, hk, hv1, hv2, hpix, hfp] at h
        rcases hl : env.wvcalib_load with _ | wc
        · rcases hsv : s.save_masters with _ | _ <;>
          · rcases hslit : s.slits with _ | i | sv | st | w | t | mk | _ <;>
              first
              | exact absurd hslit hsl0
              | (simp [get_wv_calib, chk_objs, List.find?, attrObj, ha0, hb0, hsl0,
                   chk_set, attrIsNone, hd, hc, hka, cached, hk, hv1, hv2, hpix,
                   hfp, hl, hsv, hslit, logEv, update_cache2, update_cache, cachePut,
                   alget_alset_self, alget_wv2, getArtifact] at h
                 done)
              | (simp [get_wv_calib, chk_objs, List.find?, attrObj, ha0, hb0, hsl0,
                   chk_set, attrIsNone, hd, hc, hka, cached, hk, hv1, hv2, hpix,
                   hfp, hl, hsv, hslit, logEv, update_cache2, update_cache, cachePut,
                   alget_alset_self, alget_wv2, getArtifact] at h
                 obtain ⟨h1, h2⟩ := h
                 subst h1
                 subst h2
                 simp [get_wv_calib, chk_objs, List.find?, attrObj, chk_set,
                   attrIsNone, hd, hc, hka, cached, alget_alset_self, alget_wv2,
                   getArtifact, orSlitMask, maskOf, ha0, hb0])
        · rcases hslit : s.slits with _ | i | sv | st | w | t | mk | _ <;>
            first
            | exact absurd hslit hsl0
            | (simp [get_wv_calib, chk_objs, List.find?, attrObj, ha0, hb0, hsl0,
                 chk_set, attrIsNone, hd, hc, hka, cached, hk, hv1, hv2, hpix, hfp,
                 hl, hslit, logEv, update_cache2, update_cache, cachePut,
                 alget_alset_self, alget_wv2, getArtifact] at h
               done)
            | (simp [get_wv_calib, chk_objs, List.find?, attrObj, ha0, hb0, hsl0,
                 chk_set, attrIsNone, hd, hc, hka, cached, hk, hv1, hv2, hpix, hfp,
                 hl, hslit, logEv, update_cache2, update_cache, cachePut,
                 alget_alset_self, alget_wv2, getArtifact] at h
               obtain ⟨h1, h2⟩ := h
               subst h1
               subst h2
               simp [get_wv_calib, chk_objs, List.find?, attrObj, chk_set,
                 attrIsNone, hd, hc, hka, cached, alget_alset_self, alget_wv2,
                 getArtifact, orSlitMask, maskOf, ha0, hb0])
      · -- full cache hit: the mask is re-merged and the cached artifact returned
        simp [get_wv_calib, chk_objs, List.find?, attrObj, ha0, hb0, hsl0, chk_set,
          attrIsNone, hd, hc, hka, cached, hk, hv1, hv2, getArtifact] at h
        rcases hor : orSlitMask s v2 with _ | s2 <;> rw [hor] at h <;> dsimp only at h
        · simp at h
        · obtain ⟨st, m, hslit, hmv, hs2⟩ := orSlitMask_elim hor
          simp only [Prod.mk.injEq, Res.ok.injEq] at h
          obtain ⟨h1, h2⟩ := h
          subst h1
          subst h2
          subst hs2
          simp [get_wv_calib, chk_objs, List.find?, attrObj, chk_set, attrIsNone,
            hd, hc, hka, cached, hk, hv1, hv2, getArtifact, orSlitMask,
            hmv, ha0, hb0]

theorem idemHit_get_tilts : idemHit get_tilts := by
  intro env s a s1 h
  by_cases hm0 : s.mstilt = .pynone
  · simp [get_tilts, chk_objs, List.find?, attrObj, hm0] at h
  by_cases hb0 : s.msbpm = .pynone
  · simp [get_tilts, chk_objs, List.find?, attrObj, hm0, hb0] at h
  by_cases hsl0 : s.slits = .pynone
  · simp [get_tilts, chk_objs, List.find?, attrObj, hm0, hb0, hsl0] at h
  by_cases hw0 : s.wv_calib = .pynone
  · simp [get_tilts, chk_objs, List.find?, attrObj, hm0, hb0, hsl0, hw0] at h
  rcases hd : s.det with _ | d
  · simp [get_tilts, chk_objs, List.find?, attrObj, hm0, hb0, hsl0, hw0, chk_set,
      attrIsNone, hd] at h
  rcases hc : s.calib_ID with _ | cid
  · simp [get_tilts, chk_objs, List.find?, attrObj, hm0, hb0, hsl0, hw0, chk_set,
      attrIsNone, hd, hc] at h
  rcases hka : alget s.master_key_dict "tilt" with _ | Kt
  · simp [get_tilts, chk_objs, List.find?, attrObj, hm0, hb0, hsl0, hw0, chk_set,
      attrIsNone, hd, hc, hka] at h
  rcases hk : alget s.calib_dict Kt with _ | sub
  next =>
    rcases hl : env.tilts_load with _ | td <;>
    · rcases hsv : s.save_masters with _ | _ <;>
      · rcases hslit : s.slits with _ | i | sv | st | w | t | mk | _ <;>
          first
          | exact absurd hslit hsl0
          | (simp [get_tilts, chk_objs, List.find?, attrObj, hm0, hb0, hsl0, hw0,
               chk_set, attrIsNone, hd, hc, hka, cached, hk, hl, hsv, hslit,
               logEv, update_cache2, update_cache, cachePut, alget_alset_self,
               alget_td2, getArtifact, orSlitMask, maskOf] at h
             done)
          | (simp [get_tilts, chk_objs, List.find?, attrObj, hm0, hb0, hsl0, hw0,
               chk_set, attrIsNone, hd, hc, hka, cached, hk, hl, hsv, hslit,
               logEv, update_cache2, update_cache, cachePut, alget_alset_self,
               alget_td2, getArtifact, orSlitMask, maskOf] at h
             obtain ⟨h1, h2⟩ := h
             subst h1
             subst h2
             simp [get_tilts, chk_objs, List.find?, attrObj, hm0, hb0, hw0,
               chk_set, attrIsNone, hd, hc, hka, cached, alget_alset_self,
               alget_td2, getArtifact, orSlitMask, maskOf])
  next =>
    rcases hv1 : alget sub "tilts_dict" with _ | v1
    · rcases hl : env.tilts_load with _ | td <;>
      · rcases hsv : s.save_masters with _ | _ <;>
        · rcases hslit : s.slits with _ | i | sv | st | w | t | mk | _ <;>
            first
            | exact absurd hslit hsl0
            | (simp [get_tilts, chk_objs, List.find?, attrObj, hm0, hb0, hsl0, hw0,
                 chk_set, attrIsNone, hd, hc, hka, cached, hk, hv1, hl, hsv, hslit,
                 logEv, update_cache2, update_cache, cachePut, alget_alset_self,
                 alget_td2, getArtifact, orSlitMask, maskOf] at h
               done)
            | (simp [get_tilts, chk_objs, List.find?, attrObj, hm0, hb0, hsl0, hw0,
                 chk_set, attrIsNone, hd, hc, hka, cached, hk, hv1, hl, hsv, hslit,
                 logEv, update_cache2, update_cache, cachePut, alget_alset_self,
                 alget_td2, getArtifact, orSlitMask, maskOf] at h
               obtain ⟨h1, h2⟩ := h
               subst h1
               subst h2
               simp [get_tilts, chk_objs, List.find?, attrObj, hm0, hb0, hw0,
                 chk_set, attrIsNone, hd, hc, hka, cached, alget_alset_self,
                 alget_td2, getArtifact, orSlitMask, maskOf])
    · rcases hv2 : alget sub "wtmask" with _ | v2
      · rcases hl : env.tilts_load with _ | td <;>
        · rcases hsv : s.save_masters with _ | _ <;>
          · rcases hslit : s.slits with _ | i | sv | st | w | t | mk | _ <;>
              first
              | exact absurd hslit hsl0
              | (simp [get_tilts, chk_objs, List.find?, attrObj, hm0, hb0, hsl0, hw0,
                   chk_set, attrIsNone, hd, hc, hka, cached, hk, hv1, hv2, hl, hsv,
                   hslit, logEv, update_cache2, update_cache, cachePut,
                   alget_alset_self, alget_td2, getArtifact, orSlitMask, maskOf] at h
                 done)
              | (simp [get_tilts, chk_objs, List.find?, attrObj, hm0, hb0, hsl0, hw0,
                   chk_set, attrIsNone, hd, hc, hka, cached, hk, hv1, hv2, hl, hsv,
                   hslit, logEv, update_cache2, update_cache, cachePut,
                   alget_alset_self, alget_td2, getArtifact, orSlitMask, maskOf] at h
                 obtain ⟨h1, h2⟩ := h
                 subst h1
                 subst h2
                 simp [get_tilts, chk_objs, List.find?, attrObj, hm0, hb0, hw0,
                   chk_set, attrIsNone, hd, hc, hka, cached, alget_alset_self,
                   alget_td2, getArtifact, orSlitMask, maskOf])
      · -- full cache hit
        simp [get_tilts, chk_objs, List.find?, attrObj, hm0, hb0, hsl0, hw0, chk_set,
          attrIsNone, hd, hc, hka, cached, hk, hv1, hv2, getArtifact] at h
        rcases hor : orSlitMask s v2 with _ | s2 <;> rw [hor] at h <;> dsimp only at h
        · simp at h
        · obtain ⟨st, m, hslit, hmv, hs2⟩ := orSlitMask_elim hor
          simp only [Prod.mk.injEq, Res.ok.injEq] at h
          obtain ⟨h1, h2⟩ := h
          subst h1
          subst h2
          subst hs2
          simp [get_tilts, chk_objs, List.find?, attrObj, chk_set, attrIsNone,
            hd, hc, hka, cached, hk, hv1, hv2, getArtifact, orSlitMask,
            hmv, hm0, hb0, hw0]

theorem idemHit_get_slits : idemHit (fun env s => get_slits env false s) := by
  intro env s a s1 h
  simp only at h ⊢
  by_cases hqa : s.write_qa = true ∧ s.qa_path_set = false
  · simp [get_slits, hqa] at h
  by_cases hb0 : s.msbpm = .pynone
  · simp [get_slits, hqa, chk_objs, List.find?, attrObj, hb0] at h
    obtain ⟨h1, h2⟩ := h
    subst h1
    subst h2
    simp [get_slits, hqa, chk_objs, List.find?, attrObj, hb0]
  rcases hd : s.det with _ | d
  · simp [get_slits, hqa, chk_objs, List.find?, attrObj, hb0, chk_set,
      attrIsNone, hd] at h
  rcases hc : s.calib_ID with _ | cid
  · simp [get_slits, hqa, chk_objs, List.find?, attrObj, hb0, chk_set,
      attrIsNone, hd, hc] at h
  rcases hk : alget s.calib_dict (roleKey env "trace" s.frame s.calib_ID s.det)
      with _ | sub <;> rw [hd, hc] at hk
  next =>
    rcases hrm : s.reuse_masters with _ | _
    · rcases htr : env.auto_trace_ok with _ | _
      · simp [get_slits, get_slits.get_slits_build, hqa, chk_objs, List.find?,
          attrObj, hb0, chk_set, attrIsNone, hd, hc, cached, hk, hrm, htr, logEv,
          update_cache, cachePut, alget_alset_self, getArtifact] at h
      · simp [get_slits, get_slits.get_slits_build, hqa, chk_objs, List.find?,
          attrObj, hb0, chk_set, attrIsNone, hd, hc, cached, hk, hrm, htr, logEv,
          update_cache, cachePut, alget_alset_self, getArtifact] at h
        obtain ⟨h1, h2⟩ := h
        subst h1
        subst h2
        simp [get_slits, hqa, chk_objs, List.find?, attrObj, hb0, chk_set,
          attrIsNone, hd, hc, cached, alget_alset_self, getArtifact]
    · rcases hsm : env.slits_from_master with _ | st
      · rcases hee : env.edges_exists with _ | _
        · rcases htr : env.auto_trace_ok with _ | _
          · simp [get_slits, get_slits.get_slits_build, hqa, chk_objs, List.find?,
              attrObj, hb0, chk_set, attrIsNone, hd, hc, cached, hk, hrm, hsm, hee,
              htr, logEv, update_cache, cachePut, alget_alset_self, getArtifact] at h
          · simp [get_slits, get_slits.get_slits_build, hqa, chk_objs, List.find?,
              attrObj, hb0, chk_set, attrIsNone, hd, hc, cached, hk, hrm, hsm, hee,
              htr, logEv, update_cache, cachePut, alget_alset_self, getArtifact] at h
            obtain ⟨h1, h2⟩ := h
            subst h1
            subst h2
            simp [get_slits, hqa, chk_objs, List.find?, attrObj, hb0, chk_set,
              attrIsNone, hd, hc, cached, alget_alset_self, getArtifact]
        · simp [get_slits, get_slits.get_slits_build, hqa, chk_objs, List.find?,
            attrObj, hb0, chk_set, attrIsNone, hd, hc, cached, hk, hrm, hsm, hee,
            logEv, update_cache, cachePut, alget_alset_self, getArtifact] at h
          obtain ⟨h1, h2⟩ := h
          subst h1
          subst h2
          simp [get_slits, hqa, chk_objs, List.find?, attrObj, hb0, chk_set,
            attrIsNone, hd, hc, cached, alget_alset_self, getArtifact]
      · simp [get_slits, get_slits.get_slits_build, hqa, chk_objs, List.find?,
          attrObj, hb0, chk_set, attrIsNone, hd, hc, cached, hk, hrm, hsm, logEv,
          update_cache, cachePut, alget_alset_self, getArtifact] at h
        obtain ⟨h1, h2⟩ := h
        subst h1
        subst h2
        simp [get_slits, hqa, chk_objs, List.find?, attrObj, hb0, chk_set,
          attrIsNone, hd, hc, cached, alget_alset_self, getArtifact]
  next =>
    rcases hv : alget sub "trace" with _ | v
    · rcases hrm : s.reuse_masters with _ | _
      · rcases htr : env.auto_trace_ok with _ | _
        · simp [get_slits, get_slits.get_slits_build, hqa, chk_objs, List.find?,
            attrObj, hb0, chk_set, attrIsNone, hd, hc, cached, hk, hv, hrm, htr,
            logEv, update_cache, cachePut, alget_alset_self, getArtifact] at h
        · simp [get_slits, get_slits.get_slits_build, hqa, chk_objs, List.find?,
            attrObj, hb0, chk_set, attrIsNone, hd, hc, cached, hk, hv, hrm, htr,
            logEv, update_cache, cachePut, alget_alset_self, getArtifact] at h
          obtain ⟨h1, h2⟩ := h
          subst h1
          subst h2
          simp [get_slits, hqa, chk_objs, List.find?, attrObj, hb0, chk_set,
            attrIsNone, hd, hc, cached, alget_alset_self, getArtifact]
      · rcases hsm : env.slits_from_master with _ | st
        · rcases hee : env.edges_exists with _ | _
          · rcases htr : env.auto_trace_ok with _ | _
            · simp [get_slits, get_slits.get_slits_build, hqa, chk_objs, List.find?,
                attrObj, hb0, chk_set, attrIsNone, hd, hc, cached, hk, hv, hrm, hsm,
                hee, htr, logEv, update_cache, cachePut, alget_alset_self,
                getArtifact] at h
            · simp [get_slits, get_slits.get_slits_build, hqa, chk_objs, List.find?,
                attrObj, hb0, chk_set, attrIsNone, hd, hc, cached, hk, hv, hrm, hsm,
                hee, htr, logEv, update_cache, cachePut, alget_alset_self,
                getArtifact] at h
              obtain ⟨h1, h2⟩ := h
              subst h1
              subst h2
              simp [get_slits, hqa, chk_objs, List.find?, attrObj, hb0, chk_set,
                attrIsNone, hd, hc, cached, alget_alset_self, getArtifact]
          · simp [get_slits, get_slits.get_slits_build, hqa, chk_objs, List.find?,
              attrObj, hb0, chk_set, attrIsNone, hd, hc, cached, hk, hv, hrm, hsm,
              hee, logEv, update_cache, cachePut, alget_alset_self, getArtifact] at h
            obtain ⟨h1, h2⟩ := h
            subst h1
            subst h2
            simp [get_slits, hqa, chk_objs, List.find?, attrObj, hb0, chk_set,
              attrIsNone, hd, hc, cached, alget_alset_self, getArtifact]
        · simp [get_slits, get_slits.get_slits_build, hqa, chk_objs, List.find?,
            attrObj, hb0, chk_set, attrIsNone, hd, hc, cached, hk, hv, hrm, hsm,
            logEv, update_cache, cachePut, alget_alset_self, getArtifact] at h
          obtain ⟨h1, h2⟩ := h
          subst h1
          subst h2
          simp [get_slits, hqa, chk_objs, List.find?, attrObj, hb0, chk_set,
            attrIsNone, hd, hc, cached, alget_alset_self, getArtifact]
    · simp [get_slits, hqa, chk_objs, List.find?, attrObj, hb0, chk_set,
        attrIsNone, hd, hc, cached, hk, hv, getArtifact] at h
      obtain ⟨h1, h2⟩ := h
      subst h1
      subst h2
      simp [get_slits, hqa, chk_objs, List.find?, attrObj, hb0, chk_set,
        attrIsNone, hd, hc, cached, hk, hv, getArtifact]

theorem idemHit_get_flats : idemHitPair get_flats := by
  intro env s a s1 h
  by_cases ha0 : s.msarc = .pynone
  · simp [get_flats, chk_objs, List.find?, attrObj, ha0] at h
  by_cases hb0 : s.msbpm = .pynone
  · simp [get_flats, chk_objs, List.find?, attrObj, ha0, hb0] at h
  by_cases hsl0 : s.slits = .pynone
  · simp [get_flats, chk_objs, List.find?, attrObj, ha0, hb0, hsl0] at h
  by_cases hw0 : s.wv_calib = .pynone
  · simp [get_flats, chk_objs, List.find?, attrObj, ha0, hb0, hsl0, hw0] at h
  by_cases hskip : s.parSet.flatfield_method = "skip"
  · simp [get_flats, chk_objs, List.find?, attrObj, ha0, hb0, hsl0, hw0, hskip] at h
    obtain ⟨h1, h2⟩ := h
    subst h1
    subst h2
    simp [get_flats, chk_objs, List.find?, attrObj, ha0, hb0, hsl0, hw0, hskip]
  by_cases ht0 : s.tilts_dict = .pynone
  · simp [get_flats, chk_objs, List.find?, attrObj, ha0, hb0, hsl0, hw0, hskip,
      ht0] at h
    obtain ⟨h1, h2⟩ := h
    subst h1
    subst h2
    simp [get_flats, chk_objs, List.find?, attrObj, ha0, hb0, hsl0, hw0, hskip, ht0]
  rcases hd : s.det with _ | d
  · simp [get_flats, chk_objs, List.find?, attrObj, ha0, hb0, hsl0, hw0, hskip,
      ht0, chk_set, attrIsNone, hd] at h
  rcases hc : s.calib_ID with _ | cid
  · simp [get_flats, chk_objs, List.find?, attrObj, ha0, hb0, hsl0, hw0, hskip,
      ht0, chk_set, attrIsNone, hd, hc] at h
  rcases hk : alget s.calib_dict (roleKey env "pixelflat" s.frame s.calib_ID s.det)
      with _ | sub <;> rw [hd, hc] at hk
  next =>
    by_cases hfr : s.parSet.flatfield_frame = "pixelflat"
    · rcases hf1 : env.flat_load.1 with _ | i1
      · by_cases hfe : env.frame_paths (env.find_frames "pixelflat" cid) = [] <;>
        · simp [get_flats, chk_objs, List.find?, attrObj, ha0, hb0, hsl0, hw0,
            hskip, ht0, chk_set, attrIsNone, hd, hc, cached, hk, hfr, hf1, hfe,
            logEv, update_cache2, update_cache, cachePut, alget_alset_self,
            alget_fl2, getArtifact] at h
          obtain ⟨h1, h2⟩ := h
          subst h1
          subst h2
          simp [get_flats, chk_objs, List.find?, attrObj, ha0, hb0, hsl0, hw0,
            hskip, ht0, chk_set, attrIsNone, hd, hc, cached, alget_alset_self,
            alget_fl2, getArtifact]
      · simp [get_flats, chk_objs, List.find?, attrObj, ha0, hb0, hsl0, hw0,
          hskip, ht0, chk_set, attrIsNone, hd, hc, cached, hk, hfr, hf1,
          logEv, update_cache2, update_cache, cachePut, alget_alset_self,
          alget_fl2, getArtifact] at h
        obtain ⟨h1, h2⟩ := h
        subst h1
        subst h2
        simp [get_flats, chk_objs, List.find?, attrObj, ha0, hb0, hsl0, hw0,
          hskip, ht0, chk_set, attrIsNone, hd, hc, cached, alget_alset_self,
          alget_fl2, getArtifact]
    · rcases hif1 : env.isfile s.parSet.flatfield_frame with _ | _
      · rcases hif2 : env.isfile (s.master_dir ++ "/" ++ s.parSet.flatfield_frame)
            with _ | _
        · simp [get_flats, chk_objs, List.find?, attrObj, ha0, hb0, hsl0, hw0,
            hskip, ht0, chk_set, attrIsNone, hd, hc, cached, hk, hfr, hif1, hif2,
            logEv] at h
        · simp [get_flats, chk_objs, List.find?, attrObj, ha0, hb0, hsl0, hw0,
            hskip, ht0, chk_set, attrIsNone, hd, hc, cached, hk, hfr, hif1, hif2,
            logEv, update_cache2, update_cache, cachePut, alget_alset_self,
            alget_fl2, getArtifact] at h
          obtain ⟨h1, h2⟩ := h
          subst h1
          subst h2
          simp [get_flats, chk_objs, List.find?, attrObj, ha0, hb0, hsl0, hw0,
            hskip, ht0, chk_set, attrIsNone, hd, hc, cached, alget_alset_self,
            alget_fl2, getArtifact]
      · simp [get_flats, chk_objs, List.find?, attrObj, ha0, hb0, hsl0, hw0,
          hskip, ht0, chk_set, attrIsNone, hd, hc, cached, hk, hfr, hif1,
          logEv, update_cache2, update_cache, cachePut, alget_alset_self,
          alget_fl2, getArtifact] at h
        obtain ⟨h1, h2⟩ := h
        subst h1
        subst h2
        simp [get_flats, chk_objs, List.find?, attrObj, ha0, hb0, hsl0, hw0,
          hskip, ht0, chk_set, attrIsNone, hd, hc, cached, alget_alset_self,
          alget_fl2, getArtifact]
  next =>
    rcases hv1 : alget sub "pixelflat" with _ | v1
    · by_cases hfr : s.parSet.flatfield_frame = "pixelflat"
      · rcases hf1 : env.flat_load.1 with _ | i1
        · by_cases hfe : env.frame_paths (env.find_frames "pixelflat" cid) = [] <;>
          · simp [get_flats, chk_objs, List.find?, attrObj, ha0, hb0, hsl0, hw0,
              hskip, ht0, chk_set, attrIsNone, hd, hc, cached, hk, hv1, hfr, hf1,
              hfe, logEv, update_cache2, update_cache, cachePut, alget_alset_self,
              alget_fl2, getArtifact] at h
            obtain ⟨h1, h2⟩ := h
            subst h1
            subst h2
            simp [get_flats, chk_objs, List.find?, attrObj, ha0, hb0, hsl0, hw0,
              hskip, ht0, chk_set, attrIsNone, hd, hc, cached, alget_alset_self,
              alget_fl2, getArtifact]
        · simp [get_flats, chk_objs, List.find?, attrObj, ha0, hb0, hsl0, hw0,
            hskip, ht0, chk_set, attrIsNone, hd, hc, cached, hk, hv1, hfr, hf1,
            logEv, update_cache2, update_cache, cachePut, alget_alset_self,
            alget_fl2, getArtifact] at h
          obtain ⟨h1, h2⟩ := h
          subst h1
          subst h2
          simp [get_flats, chk_objs, List.find?, attrObj, ha0, hb0, hsl0, hw0,
            hskip, ht0, chk_set, attrIsNone, hd, hc, cached, alget_alset_self,
            alget_fl2, getArtifact]
      · rcases hif1 : env.isfile s.parSet.flatfield_frame with _ | _
        · rcases hif2 : env.isfile (s.master_dir ++ "/" ++ s.parSet.flatfield_frame)
              with _ | _
          · simp [get_flats, chk_objs, List.find?, attrObj, ha0, hb0, hsl0, hw0,
              hskip, ht0, chk_set, attrIsNone, hd, hc, cached, hk, hv1, hfr, hif1,
              hif2, logEv] at h
          · simp [get_flats, chk_objs, List.find?, attrObj, ha0, hb0, hsl0, hw0,
              hskip, ht0, chk_set, attrIsNone, hd, hc, cached, hk, hv1, hfr, hif1,
              hif2, logEv, update_cache2, update_cache, cachePut, alget_alset_self,
              alget_fl2, getArtifact] at h
            obtain ⟨h1, h2⟩ := h
            subst h1
            subst h2
            simp [get_flats, chk_objs, List.find?, attrObj, ha0, hb0, hsl0, hw0,
              hskip, ht0, chk_set, attrIsNone, hd, hc, cached, alget_alset_self,
              alget_fl2, getArtifact]
        · simp [get_flats, chk_objs, List.find?, attrObj, ha0, hb0, hsl0, hw0,
            hskip, ht0, chk_set, attrIsNone, hd, hc, cached, hk, hv1, hfr, hif1,
            logEv, update_cache2, update_cache, cachePut, alget_alset_self,
            alget_fl2, getArtifact] at h
          obtain ⟨h1, h2⟩ := h
          subst h1
          subst h2
          simp [get_flats, chk_objs, List.find?, attrObj, ha0, hb0, hsl0, hw0,
            hskip, ht0, chk_set, attrIsNone, hd, hc, cached, alget_alset_self,
            alget_fl2, getArtifact]
    · rcases hv2 : alget sub "illumflat" with _ | v2
      · by_cases hfr : s.parSet.flatfield_frame = "pixelflat"
        · rcases hf1 : env.flat_load.1 with _ | i1
          · by_cases hfe : env.frame_paths (env.find_frames "pixelflat" cid) = [] <;>
            · simp [get_flats, chk_objs, List.find?, attrObj, ha0, hb0, hsl0, hw0,
                hskip, ht0, chk_set, attrIsNone, hd, hc, cached, hk, hv1, hv2, hfr,
                hf1, hfe, logEv, update_cache2, update_cache, cachePut,
                alget_alset_self, alget_fl2, getArtifact] at h
              obtain ⟨h1, h2⟩ := h
              subst h1
              subst h2
              simp [get_flats, chk_objs, List.find?, attrObj, ha0, hb0, hsl0, hw0,
                hskip, ht0, chk_set, attrIsNone, hd, hc, cached, alget_alset_self,
                alget_fl2, getArtifact]
          · simp [get_flats, chk_objs, List.find?, attrObj, ha0, hb0, hsl0, hw0,
              hskip, ht0, chk_set, attrIsNone, hd, hc, cached, hk, hv1, hv2, hfr,
              hf1, logEv, update_cache2, update_cache, cachePut, alget_alset_self,
              alget_fl2, getArtifact] at h
            obtain ⟨h1, h2⟩ := h
            subst h1
            subst h2
            simp [get_flats, chk_objs, List.find?, attrObj, ha0, hb0, hsl0, hw0,
              hskip, ht0, chk_set, attrIsNone, hd, hc, cached, alget_alset_self,
              alget_fl2, getArtifact]
        · rcases hif1 : env.isfile s.parSet.flatfield_frame with _ | _
          · rcases hif2 : env.isfile (s.master_dir ++ "/" ++ s.parSet.flatfield_frame)
                with _ | _
            · simp [get_flats, chk_objs, List.find?, attrObj, ha0, hb0, hsl0, hw0,
                hskip, ht0, chk_set, attrIsNone, hd, hc, cached, hk, hv1, hv2, hfr,
                hif1, hif2, logEv] at h
            · simp [get_flats, chk_objs, List.find?, attrObj, ha0, hb0, hsl0, hw0,
                hskip, ht0, chk_set, attrIsNone, hd, hc, cached, hk, hv1, hv2, hfr,
                hif1, hif2, logEv, update_cache2, update_cache, cachePut,
                alget_alset_self, alget_fl2, getArtifact] at h
              obtain ⟨h1, h2⟩ := h
              subst h1
              subst h2
              simp [get_flats, chk_objs, List.find?, attrObj, ha0, hb0, hsl0, hw0,
                hskip, ht0, chk_set, attrIsNone, hd, hc, cached, alget_alset_self,
                alget_fl2, getArtifact]
          · simp [get_flats, chk_objs, List.find?, attrObj, ha0, hb0, hsl0, hw0,
              hskip, ht0, chk_set, attrIsNone, hd, hc, cached, hk, hv1, hv2, hfr,
              hif1, logEv, update_cache2, update_cache, cachePut, alget_alset_self,
              alget_fl2, getArtifact] at h
            obtain ⟨h1, h2⟩ := h
            subst h1
            subst h2
            simp [get_flats, chk_objs, List.find?, attrObj, ha0, hb0, hsl0, hw0,
              hskip, ht0, chk_set, attrIsNone, hd, hc, cached, alget_alset_self,
              alget_fl2, getArtifact]
      · simp [get_flats, chk_objs, List.find?, attrObj, ha0, hb0, hsl0, hw0,
          hskip, ht0, chk_set, attrIsNone, hd, hc, cached, hk, hv1, hv2,
          getArtifact] at h
        obtain ⟨h1, h2⟩ := h
        subst h1
        subst h2
        simp [get_flats, chk_objs, List.find?, attrObj, ha0, hb0, hsl0, hw0,
          hskip, ht0, chk_set, attrIsNone, hd, hc, cached, hk, hv1, hv2,
          getArtifact]

/-- C1: every product getter is idempotent on cache hits — after a
successful call, an immediately repeated call (no intervening `set_config`)
returns the identical artifact and appends no builder event (no
instantiation, load, build or save). -/
theorem spec_c1_idempotent_cache_hits :
    idemHit get_arc ∧ idemHit get_bias ∧ idemHit get_tiltimg ∧ idemHit get_bpm
    ∧ idemHit (fun env s => get_slits env false s) ∧ idemHit get_wv_calib
    ∧ idemHit get_tilts ∧ idemHit get_wave ∧ idemHitPair get_flats :=
  ⟨idemHit_get_arc, idemHit_get_bias, idemHit_get_tiltimg, idemHit_get_bpm,
   idemHit_get_slits, idemHit_get_wv_calib, idemHit_get_tilts, idemHit_get_wave,
   idemHit_get_flats⟩

/-- Witness for C1: a concrete first `get_arc` call builds the arc; the
repeated call returns the same artifact with no new events. -/
theorem spec_c1_witness :
    (get_arc env0 ((get_arc env0 stC).2)).1 = .ok (.img [[1]])
    ∧ ((get_arc env0 ((get_arc env0 stC).2)).2).events
        = ((get_arc env0 stC).2).events :=
  spec_c1_idempotent_cache_hits.1 env0 stC (.img [[1]]) ((get_arc env0 stC).2)
    (by decide)

theorem maskLor_absorb (a c : Mask) : maskLor a (maskLor a c) = maskLor a c := by
  induction a generalizing c with
  | nil => simp [maskLor]
  | cons x xs ih =>
    cases c with
    | nil => simp [maskLor]
    | cons z zs =>
      simp only [maskLor, List.zipWith] at ih ⊢
      rw [ih]
      cases x <;> cases z <;> rfl

theorem maskLor_3 (a b c : Mask) :
    maskLor (maskLor a b) (maskLor a c) = maskLor (maskLor a b) c := by
  induction a generalizing b c with
  | nil => simp [maskLor]
  | cons x xs ih =>
    cases b with
    | nil => simp [maskLor]
    | cons y ys =>
      cases c with
      | nil => simp [maskLor]
      | cons z zs =>
        simp only [maskLor, List.zipWith] at ih ⊢
        rw [ih]
        cases x <;> cases y <;> cases z <;> rfl

theorem maskLor_exchange (m a b : Mask) :
    maskLor (maskLor m a) b = maskLor (maskLor m b) a := by
  induction m generalizing a b with
  | nil => simp [maskLor]
  | cons x xs ih =>
    cases a with
    | nil =>
      cases b <;> simp [maskLor]
    | cons y ys =>
      cases b with
      | nil => simp [maskLor]
      | cons z zs =>
        simp only [maskLor, List.zipWith] at ih ⊢
        rw [ih]
        cases x <;> cases y <;> cases z <;> rfl

theorem maskLor_sub2 (m a b : Mask) :
    maskLor (maskLor m b) (maskLor (maskLor m a) b) = maskLor (maskLor m a) b := by
  induction m generalizing a b with
  | nil => simp [maskLor]
  | cons x xs ih =>
    cases a with
    | nil =>
      cases b <;> simp [maskLor, maskLor_absorb]
    | cons y ys =>
      cases b with
      | nil => simp [maskLor]
      | cons z zs =>
        simp only [maskLor, List.zipWith] at ih ⊢
        rw [ih]
        cases x <;> cases y <;> cases z <;> rfl

theorem ltype_alset_keyEmpty {cd : Cache} {K : String} (K' T : String)
    (h : alget cd K = none) :
    ltype (alset cd K []) K' T = ltype cd K' T := by
  unfold ltype
  by_cases hKK : K' = K
  · subst hKK
    rw [alget_alset_self, h]
    simp [alget]
  · rw [alget_alset_ne _ _ _ _ hKK]

theorem ltype_alset_typeNe {cd : Cache} {K T0 : String}
    {sub : List (String × PyVal)} {v : PyVal} (K' T : String)
    (h : alget cd K = some sub) (hT : T ≠ T0) :
    ltype (alset cd K (alset sub T0 v)) K' T = ltype cd K' T := by
  unfold ltype
  by_cases hKK : K' = K
  · subst hKK
    rw [alget_alset_self, h]
    dsimp only
    exact alget_alset_ne _ _ _ _ hT
  · rw [alget_alset_ne _ _ _ _ hKK]

theorem tiltsContrib_congr {env : Env} {t s : CState}
    (h1 : t.master_key_dict = s.master_key_dict)
    (h2 : ∀ K T, T ≠ "wavecalib" → T ≠ "wvmask" →
        ltype t.calib_dict K T = ltype s.calib_dict K T)
    (h3 : slitN t = slitN s) :
    tiltsContrib env t = tiltsContrib env s := by
  unfold tiltsContrib
  rw [h1, h3]
  rcases alget s.master_key_dict "tilt" with _ | Kt
  · rfl
  · dsimp only
    rw [h2 Kt "tilts_dict" (by decide) (by decide),
       h2 Kt "wtmask" (by decide) (by decide)]

theorem wvContrib_congr {env : Env} {t s : CState}
    (h1 : t.master_key_dict = s.master_key_dict)
    (h2 : ∀ K T, T ≠ "tilts_dict" → T ≠ "wtmask" →
        ltype t.calib_dict K T = ltype s.calib_dict K T)
    (h3 : slitN t = slitN s) :
    wvContrib env t = wvContrib env s := by
  unfold wvContrib
  rw [h1, h3]
  rcases alget s.master_key_dict "arc" with _ | Ka
  · rfl
  · dsimp only
    rw [h2 Ka "wavecalib" (by decide) (by decide),
       h2 Ka "wvmask" (by decide) (by decide)]

theorem wv_run_spec {env : Env} {s : CState} {a : PyVal} {s1 : CState}
    (h : get_wv_calib env s = (.ok a, s1)) :
    slitMask s1 = maskLor (slitMask s) (wvContrib env s)
    ∧ s1.master_key_dict = s.master_key_dict
    ∧ slitN s1 = slitN s
    ∧ ∀ K T, T ≠ "wavecalib" → T ≠ "wvmask" →
        ltype s1.calib_dict K T = ltype s.calib_dict K T := by
  by_cases ha0 : s.msarc = .pynone
  · simp [get_wv_calib, chk_objs, List.find?, attrObj, ha0] at h
  by_cases hb0 : s.msbpm = .pynone
  · simp [get_wv_calib, chk_objs, List.find?, attrObj, ha0, hb0] at h
  by_cases hsl0 : s.slits = .pynone
  · simp [get_wv_calib, chk_objs, List.find?, attrObj, ha0, hb0, hsl0] at h
  rcases hd : s.det with _ | d
  · simp [get_wv_calib, chk_objs, List.find?, attrObj, ha0, hb0, hsl0, chk_set,
      attrIsNone, hd] at h
  rcases hc : s.calib_ID with _ | cid
  · simp [get_wv_calib, chk_objs, List.find?, attrObj, ha0, hb0, hsl0, chk_set,
      attrIsNone, hd, hc] at h
  rcases hka : alget s.master_key_dict "arc" with _ | Karc
  · simp [get_wv_calib, chk_objs, List.find?, attrObj, ha0, hb0, hsl0, chk_set,
      attrIsNone, hd, hc, hka] at h
  rcases hk : alget s.calib_dict Karc with _ | sub
  next =>
    by_cases hpix : s.parSet.wavelengths_reference = "pixel"
    · simp [get_wv_calib, chk_objs, List.find?, attrObj, ha0, hb0, hsl0, chk_set,
        attrIsNone, hd, hc, hka, cached, hk, hpix] at h
    by_cases hfp : env.frame_paths (env.find_frames "arc" cid) = []
    · simp [get_wv_calib, chk_objs, List.find?, attrObj, ha0, hb0, hsl0, chk_set,
        attrIsNone, hd, hc, hka, cached, hk, hpix, hfp] at h
    rcases hl : env.wvcalib_load with _ | wc <;>
    · rcases hsv : s.save_masters with _ | _ <;>
      · rcases hslit : s.slits with _ | i | sv | st | w | t | mk | _ <;>
          first
          | exact absurd hslit hsl0
          | (simp [get_wv_calib, chk_objs, List.find?, attrObj, ha0, hb0, hsl0,
               chk_set, attrIsNone, hd, hc, hka, cached, hk, hpix, hfp, hl, hsv,
               hslit, logEv, update_cache2, update_cache, cachePut,
               alget_alset_self, alget_wv2, getArtifact] at h
             done)
          | (simp [get_wv_calib, chk_objs, List.find?, attrObj, ha0, hb0, hsl0,
               chk_set, attrIsNone, hd, hc, hka, cached, hk, hpix, hfp, hl, hsv,
               hslit, logEv, update_cache2, update_cache, cachePut,
               alget_alset_self, alget_wv2, getArtifact] at h
             obtain ⟨h1, h2⟩ := h
             subst h2
             refine ⟨?_, ?_, ?_, ?_⟩
             · simp [slitMask, slitN, wvContrib, ltype, hka, hk, hslit]
             · simp
             · simp [slitN, hslit]
             · intro K T hT1 hT2
               rw [ltype_alset_typeNe K T (alget_alset_self _ _ _) hT2,
                 ltype_alset_typeNe K T (alget_alset_self _ _ _) hT1,
                 ltype_alset_keyEmpty K T hk])
  next =>
    rcases hv1 : alget sub "wavecalib" with _ | v1
    · by_cases hpix : s.parSet.wavelengths_reference = "pixel"
      · simp [get_wv_calib, chk_objs, List.find?, attrObj, ha0, hb0, hsl0, chk_set,
          attrIsNone, hd, hc, hka, cached, hk, hv1, hpix] at h
      by_cases hfp : env.frame_paths (env.find_frames "arc" cid) = []
      · simp [get_wv_calib, chk_objs, List.find?, attrObj, ha0, hb0, hsl0, chk_set,
          attrIsNone, hd, hc, hka, cached, hk, hv1, hpix, hfp] at h
      rcases hl : env.wvcalib_load with _ | wc <;>
      · rcases hsv : s.save_masters with _ | _ <;>
        · rcases hslit : s.slits with _ | i | sv | st | w | t | mk | _ <;>
            first
            | exact absurd hslit hsl0
            | (simp [get_wv_calib, chk_objs, List.find?, attrObj, ha0, hb0, hsl0,
                 chk_set, attrIsNone, hd, hc, hka, cached, hk, hv1, hpix, hfp, hl,
                 hsv, hslit, logEv, update_cache2, update_cache, cachePut,
                 alget_alset_self, alget_wv2, getArtifact] at h
               done)
            | (simp [get_wv_calib, chk_objs, List.find?, attrObj, ha0, hb0, hsl0,
                 chk_set, attrIsNone, hd, hc, hka, cached, hk, hv1, hpix, hfp, hl,
                 hsv, hslit, logEv, update_cache2, update_cache, cachePut,
                 alget_alset_self, alget_wv2, getArtifact] at h
               obtain ⟨h1, h2⟩ := h
               subst h2
               refine ⟨?_, ?_, ?_, ?_⟩
               · simp [slitMask, slitN, wvContrib, ltype, hka, hk, hv1, hslit]
               · simp
               · simp [slitN, hslit]
               · intro K T hT1 hT2
                 rw [ltype_alset_typeNe K T (alget_alset_self _ _ _) hT2,
                   ltype_alset_typeNe K T (alget_alset_self _ _ _) hT1,
                   ltype_alset_typeNe K T hk hT1])
    · rcases hv2 : alget sub "wvmask" with _ | v2
      · by_cases hpix : s.parSet.wavelengths_reference = "pixel"
        · simp [get_wv_calib, chk_objs, List.find?, attrObj, ha0, hb0, hsl0, chk_set,
            attrIsNone, hd, hc, hka, cached, hk, hv1, hv2, hpix] at h
        by_cases hfp : env.frame_paths (env.find_frames "arc" cid) = []
        · simp [get_wv_calib, chk_objs, List.find?, attrObj, ha0, hb0, hsl0, chk_set,
            attrIsNone, hd, hc, hka, cached, hk, hv1, hv2, hpix, hfp] at h
        rcases hl : env.wvcalib_load with _ | wc <;>
        · rcases hsv : s.save_masters with _ | _ <;>
          · rcases hslit : s.slits with _ | i | sv | st | w | t | mk | _ <;>
              first
              | exact absurd hslit hsl0
              | (simp [get_wv_calib, chk_objs, List.find?, attrObj, ha0, hb0, hsl0,
                   chk_set, attrIsNone, hd, hc, hka, cached, hk, hv1, hv2, hpix,
                   hfp, hl, hsv, hslit, logEv, update_cache2, update_cache,
                   cachePut, alget_alset_self, alget_wv2, getArtifact] at h
                 done)
              | (simp [get_wv_calib, chk_objs, List.find?, attrObj, ha0, hb0, hsl0,
                   chk_set, attrIsNone, hd, hc, hka, cached, hk, hv1, hv2, hpix,
                   hfp, hl, hsv, hslit, logEv, update_cache2, update_cache,
                   cachePut, alget_alset_self, alget_wv2, getArtifact] at h
                 obtain ⟨h1, h2⟩ := h
                 subst h2
                 refine ⟨?_, ?_, ?_, ?_⟩
                 · simp [slitMask, slitN, wvContrib, ltype, hka, hk, hv1, hv2, hslit]
                 · simp
                 · simp [slitN, hslit]
                 · intro K T hT1 hT2
                   rw [ltype_alset_typeNe K T (alget_alset_self _ _ _) hT2,
                     ltype_alset_typeNe K T (alget_alset_self _ _ _) hT1,
                     ltype_alset_typeNe K T hk hT2])
      · -- full cache hit
        simp [get_wv_calib, chk_objs, List.find?, attrObj, ha0, hb0, hsl0, chk_set,
          attrIsNone, hd, hc, hka, cached, hk, hv1, hv2, getArtifact] at h
        rcases hor : orSlitMask s v2 with _ | s2 <;> rw [hor] at h <;> dsimp only at h
        · simp at h
        · obtain ⟨st, m, hslit, hmv, hs2⟩ := orSlitMask_elim hor
          simp only [Prod.mk.injEq, Res.ok.injEq] at h
          obtain ⟨h1, h2⟩ := h
          subst h2
          subst hs2
          refine ⟨?_, ?_, ?_, ?_⟩
          · simp [slitMask, wvContrib, ltype, hka, hk, hv1, hv2, hmv, hslit]
          · simp
          · simp [slitN, hslit]
          · intro K T hT1 hT2
            rfl

theorem tilts_run_spec {env : Env} {s : CState} {a : PyVal} {s1 : CState}
    (h : get_tilts env s = (.ok a, s1)) :
    slitMask s1 = maskLor (slitMask s) (tiltsContrib env s)
    ∧ s1.master_key_dict = s.master_key_dict
    ∧ slitN s1 = slitN s
    ∧ ∀ K T, T ≠ "tilts_dict" → T ≠ "wtmask" →
        ltype s1.calib_dict K T = ltype s.calib_dict K T := by
  by_cases hm0 : s.mstilt = .pynone
  · simp [get_tilts, chk_objs, List.find?, attrObj, hm0] at h
  by_cases hb0 : s.msbpm = .pynone
  · simp [get_tilts, chk_objs, List.find?, attrObj, hm0, hb0] at h
  by_cases hsl0 : s.slits = .pynone
  · simp [get_tilts, chk_objs, List.find?, attrObj, hm0, hb0, hsl0] at h
  by_cases hw0 : s.wv_calib = .pynone
  · simp [get_tilts, chk_objs, List.find?, attrObj, hm0, hb0, hsl0, hw0] at h
  rcases hd : s.det with _ | d
  · simp [get_tilts, chk_objs, List.find?, attrObj, hm0, hb0, hsl0, hw0, chk_set,
      attrIsNone, hd] at h
  rcases hc : s.calib_ID with _ | cid
  · simp [get_tilts, chk_objs, List.find?, attrObj, hm0, hb0, hsl0, hw0, chk_set,
      attrIsNone, hd, hc] at h
  rcases hka : alget s.master_key_dict "tilt" with _ | Kt
  · simp [get_tilts, chk_objs, List.find?, attrObj, hm0, hb0, hsl0, hw0, chk_set,
      attrIsNone, hd, hc, hka] at h
  rcases hk : alget s.calib_dict Kt with _ | sub
  next =>
    rcases hl : env.tilts_load with _ | td <;>
    · rcases hsv : s.save_masters with _ | _ <;>
      · rcases hslit : s.slits with _ | i | sv | st | w | t | mk | _ <;>
          first
          | exact absurd hslit hsl0
          | (simp [get_tilts, chk_objs, List.find?, attrObj, hm0, hb0, hsl0, hw0,
               chk_set, attrIsNone, hd, hc, hka, cached, hk, hl, hsv, hslit,
               logEv, update_cache2, update_cache, cachePut, alget_alset_self,
               alget_td2, getArtifact, orSlitMask, maskOf] at h
             done)
          | (simp [get_tilts, chk_objs, List.find?, attrObj, hm0, hb0, hsl0, hw0,
               chk_set, attrIsNone, hd, hc, hka, cached, hk, hl, hsv, hslit,
               logEv, update_cache2, update_cache, cachePut, alget_alset_self,
               alget_td2, getArtifact, orSlitMask, maskOf] at h
             obtain ⟨h1, h2⟩ := h
             subst h2
             refine ⟨?_, ?_, ?_, ?_⟩
             · simp [slitMask, slitN, tiltsContrib, ltype, hka, hk, hl, hslit]
             · simp
             · simp [slitN, hslit]
             · intro K T hT1 hT2
               rw [ltype_alset_typeNe K T (alget_alset_self _ _ _) hT2,
                 ltype_alset_typeNe K T (alget_alset_self _ _ _) hT1,
                 ltype_alset_keyEmpty K T hk])
  next =>
    rcases hv1 : alget sub "tilts_dict" with _ | v1
    · rcases hl : env.tilts_load with _ | td <;>
      · rcases hsv : s.save_masters with _ | _ <;>
        · rcases hslit : s.slits with _ | i | sv | st | w | t | mk | _ <;>
            first
            | exact absurd hslit hsl0
            | (simp [get_tilts, chk_objs, List.find?, attrObj, hm0, hb0, hsl0, hw0,
                 chk_set, attrIsNone, hd, hc, hka, cached, hk, hv1, hl, hsv, hslit,
                 logEv, update_cache2, update_cache, cachePut, alget_alset_self,
                 alget_td2, getArtifact, orSlitMask, maskOf] at h
               done)
            | (simp [get_tilts, chk_objs, List.find?, attrObj, hm0, hb0, hsl0, hw0,
                 chk_set, attrIsNone, hd, hc, hka, cached, hk, hv1, hl, hsv, hslit,
                 logEv, update_cache2, update_cache, cachePut, alget_alset_self,
                 alget_td2, getArtifact, orSlitMask, maskOf] at h
               obtain ⟨h1, h2⟩ := h
               subst h2
               refine ⟨?_, ?_, ?_, ?_⟩
               · simp [slitMask, slitN, tiltsContrib, ltype, hka, hk, hv1, hl, hslit]
               · simp
               · simp [slitN, hslit]
               · intro K T hT1 hT2
                 rw [ltype_alset_typeNe K T (alget_alset_self _ _ _) hT2,
                   ltype_alset_typeNe K T (alget_alset_self _ _ _) hT1,
                   ltype_alset_typeNe K T hk hT1])
    · rcases hv2 : alget sub "wtmask" with _ | v2
      · rcases hl : env.tilts_load with _ | td <;>
        · rcases hsv : s.save_masters with _ | _ <;>
          · rcases hslit : s.slits with _ | i | sv | st | w | t | mk | _ <;>
              first
              | exact absurd hslit hsl0
              | (simp [get_tilts, chk_objs, List.find?, attrObj, hm0, hb0, hsl0,
                   hw0, chk_set, attrIsNone, hd, hc, hka, cached, hk, hv1, hv2, hl,
                   hsv, hslit, logEv, update_cache2, update_cache, cachePut,
                   alget_alset_self, alget_td2, getArtifact, orSlitMask, maskOf] at h
                 done)
              | (simp [get_tilts, chk_objs, List.find?, attrObj, hm0, hb0, hsl0,
                   hw0, chk_set, attrIsNone, hd, hc, hka, cached, hk, hv1, hv2, hl,
                   hsv, hslit, logEv, update_cache2, update_cache, cachePut,
                   alget_alset_self, alget_td2, getArtifact, orSlitMask, maskOf] at h
                 obtain ⟨h1, h2⟩ := h
                 subst h2
                 refine ⟨?_, ?_, ?_, ?_⟩
                 · simp [slitMask, slitN, tiltsContrib, ltype, hka, hk, hv1, hv2,
                     hl, hslit]
                 · simp
                 · simp [slitN, hslit]
                 · intro K T hT1 hT2
                   rw [ltype_alset_typeNe K T (alget_alset_self _ _ _) hT2,
                     ltype_alset_typeNe K T (alget_alset_self _ _ _) hT1,
                     ltype_alset_typeNe K T hk hT2])
      · -- full cache hit
        simp [get_tilts, chk_objs, List.find?, attrObj, hm0, hb0, hsl0, hw0,
          chk_set, attrIsNone, hd, hc, hka, cached, hk, hv1, hv2, getArtifact] at h
        rcases hor : orSlitMask s v2 with _ | s2 <;> rw [hor] at h <;> dsimp only at h
        · simp at h
        · obtain ⟨st, m, hslit, hmv, hs2⟩ := orSlitMask_elim hor
          simp only [Prod.mk.injEq, Res.ok.injEq] at h
          obtain ⟨h1, h2⟩ := h
          subst h2
          subst hs2
          refine ⟨?_, ?_, ?_, ?_⟩
          · simp [slitMask, tiltsContrib, ltype, hka, hk, hv1, hv2, hmv, hslit]
          · simp
          · simp [slitN, hslit]
          · intro K T hT1 hT2
            rfl

/-- C9: for a shared slit-trace artifact, running `get_wv_calib` and
`get_tilts` in either order yields the same final slit mask, equal to the
OR of the prior mask with both getters' mask contributions, and equal to
the OR of the masks after each getter alone — of which it is a superset. -/
theorem spec_c9_mask_accumulation (env : Env) (s : CState) (a1 a2 b1 b2 : PyVal)
    (s1 s12 s2 s21 : CState)
    (hA1 : get_wv_calib env s = (.ok a1, s1))
    (hA2 : get_tilts env s1 = (.ok a2, s12))
    (hB1 : get_tilts env s = (.ok b1, s2))
    (hB2 : get_wv_calib env s2 = (.ok b2, s21)) :
    slitMask s1 = maskLor (slitMask s) (wvContrib env s)
    ∧ slitMask s2 = maskLor (slitMask s) (tiltsContrib env s)
    ∧ slitMask s12
        = maskLor (maskLor (slitMask s) (wvContrib env s)) (tiltsContrib env s)
    ∧ slitMask s21 = slitMask s12
    ∧ slitMask s12 = maskLor (slitMask s1) (slitMask s2)
    ∧ maskSub (slitMask s1) (slitMask s12)
    ∧ maskSub (slitMask s2) (slitMask s12) := by
  obtain ⟨e1, m1, n1, l1⟩ := wv_run_spec hA1
  obtain ⟨e2, _, _, _⟩ := tilts_run_spec hA2
  obtain ⟨e3, m3, n3, l3⟩ := tilts_run_spec hB1
  obtain ⟨e4, _, _, _⟩ := wv_run_spec hB2
  have ct1 : tiltsContrib env s1 = tiltsContrib env s := tiltsContrib_congr m1 l1 n1
  have cw2 : wvContrib env s2 = wvContrib env s := wvContrib_congr m3 l3 n3
  have h12 : slitMask s12
      = maskLor (maskLor (slitMask s) (wvContrib env s)) (tiltsContrib env s) := by
    rw [e2, ct1, e1]
  have h21 : slitMask s21
      = maskLor (maskLor (slitMask s) (tiltsContrib env s)) (wvContrib env s) := by
    rw [e4, cw2, e3]
  refine ⟨e1, e3, h12, ?_, ?_, ?_, ?_⟩
  · rw [h21, h12, maskLor_exchange]
  · rw [h12, e1, e3, maskLor_3]
  · show maskLor (slitMask s1) (slitMask s12) = slitMask s12
    rw [h12, e1, maskLor_absorb]
  · show maskLor (slitMask s2) (slitMask s12) = slitMask s12
    rw [h12, e3, maskLor_sub2]

/-- Witness for C9 at a concrete state with both calibrations cached. -/
theorem spec_c9_witness :
    slitMask ((get_wv_calib env0 stW).2) = maskLor (slitMask stW) (wvContrib env0 stW)
    ∧ slitMask ((get_tilts env0 stW).2) = maskLor (slitMask stW) (tiltsContrib env0 stW)
    ∧ slitMask ((get_tilts env0 ((get_wv_calib env0 stW).2)).2)
        = maskLor (maskLor (slitMask stW) (wvContrib env0 stW)) (tiltsContrib env0 stW)
    ∧ slitMask ((get_wv_calib env0 ((get_tilts env0 stW).2)).2)
        = slitMask ((get_tilts env0 ((get_wv_calib env0 stW).2)).2)
    ∧ slitMask ((get_tilts env0 ((get_wv_calib env0 stW).2)).2)
        = maskLor (slitMask ((get_wv_calib env0 stW).2)) (slitMask ((get_tilts env0 stW).2))
    ∧ maskSub (slitMask ((get_wv_calib env0 stW).2))
        (slitMask ((get_tilts env0 ((get_wv_calib env0 stW).2)).2))
    ∧ maskSub (slitMask ((get_tilts env0 stW).2))
        (slitMask ((get_tilts env0 ((get_wv_calib env0 stW).2)).2)) :=
  spec_c9_mask_accumulation env0 stW (.wvcalibV 7) (.tiltsDictV [[4]])
    (.tiltsDictV [[4]]) (.wvcalibV 7)
    ((get_wv_calib env0 stW).2) ((get_tilts env0 ((get_wv_calib env0 stW).2)).2)
    ((get_tilts env0 stW).2) ((get_wv_calib env0 ((get_tilts env0 stW).2)).2)
    (by decide) (by decide) (by decide) (by decide)
